import Mathlib

set_option maxHeartbeats 1600000

/-
Verification development for the email_shooter repository.

The core under verification is the campaign dispatch engine in src/mailer.py
(and its near-duplicate src/mailer_old.py), together with the template
renderer (src/mailer.py render_template, backed by Jinja2) and the template
validator in src/utils.py.

Modelling conventions:
  - Machine integers are Nat (no counter in the engine can overflow in the
    modelled operations, which only increment).
  - Python None-able strings are Option String; Python truthiness of such a
    value (None and the empty string are falsy) is modelled by pyTruthy.
  - datetime fields (sent_at, created_at, ...) carry no information any claim
    depends on and are omitted from the record models.
  - Exceptions are modelled with Except; the generic Python Exception raised
    by the source at distinct raise sites with distinct messages is modelled
    by an inductive error type with one constructor per raise site.
  - The Jinja2 template engine is an external library; it is modelled by a
    simple-variable-substitution grammar faithful to its documented default
    behaviour: parsing fails on an unterminated placeholder opener, and a
    rendered placeholder whose variable is undefined in the context expands
    to the empty string (the default Undefined). Template(t) parses; the
    later render call substitutes.
-/

/-- Model of the Subscriber row from src/models.py. The id is optional
because the ephemeral test subscriber built by send_test_email is never
inserted and has no primary key. The is_active field is only ever read
through the active-subscriber query filter. -/
structure Subscriber where
  id : Option Nat
  email : String
  name : Option String
  custom_message : Option String
  is_active : Bool
  unsubscribe_token : String
  deriving Repr, DecidableEq

/-- Model of the Campaign row from src/models.py (datetime columns omitted). -/
structure Campaign where
  id : Nat
  name : String
  subject : String
  template_html : String
  template_text : Option String
  status : String
  total_recipients : Nat
  emails_sent : Nat
  emails_failed : Nat
  deriving Repr, DecidableEq

/-- Model of the EmailLog row from src/models.py (datetime columns omitted).
subscriber_id is optional because the test subscriber has no id. -/
structure EmailLog where
  subscriber_id : Option Nat
  campaign_id : Nat
  sendgrid_message_id : Option String
  status : String
  error_message : Option String
  deriving Repr, DecidableEq

/-- Python truthiness of an optional string: None and the empty string are
falsy, every other string is truthy. -/
def pyTruthy : Option String → Bool
  | none => false
  | some s => ! s.isEmpty

/-- Python expression x or y on an optional string x and a plain string y:
returns the string when it is truthy, otherwise the fallback. -/
def pyOr (x : Option String) (y : String) : String :=
  match x with
  | none => y
  | some s => if s.isEmpty then y else s

/-- Python str() applied to an Optional[int]: None prints as None. -/
def pyStrOptNat : Option Nat → String
  | none => "None"
  | some n => toString n

/-- One parsed element of a template: a literal character or a variable
placeholder. -/
inductive Piece where
  | lit (c : Char)
  | var (v : String)
  deriving Repr, DecidableEq

/-- Parser for the simple-substitution template grammar modelling Jinja2:
literal text, with placeholders opened by a double opening brace and closed
by a double closing brace. The second argument is none in literal mode and
carries the accumulated variable text inside a placeholder; the third is the
reversed accumulator of pieces. Parsing fails exactly when the input ends
inside an unterminated placeholder, modelling TemplateSyntaxError from
Template(template_content). -/
def parseAux : List Char → Option String → List Piece → Option (List Piece)
  | [], some _, _ => none
  | [], none, acc => some acc.reverse
  | '\x7b' :: '\x7b' :: rest, none, acc => parseAux rest (some ("")) acc
  | '\x7d' :: '\x7d' :: rest, some v, acc => parseAux rest none (Piece.var v.trim :: acc)
  | c :: rest, none, acc => parseAux rest none (Piece.lit c :: acc)
  | c :: rest, some v, acc => parseAux rest (some (v.push c)) acc

/-- Parse a whole template string, as Template(template_content) does. -/
def parseTemplate (template_content : String) : Option (List Piece) :=
  parseAux template_content.data none []

/-- Context lookup with the Jinja2 default-Undefined behaviour: a variable
absent from the context renders as the empty string. -/
def lookupCtx (context : List (String × String)) (v : String) : String :=
  match context.lookup v with
  | some x => x
  | none => ""

/-- Substitute every piece of a parsed template against a context, as
template.render(**context) does under the default Undefined. -/
def renderPieces (ps : List Piece) (context : List (String × String)) : String :=
  match ps with
  | [] => ""
  | Piece.lit c :: rest => String.singleton c ++ renderPieces rest context
  | Piece.var v :: rest => lookupCtx context v ++ renderPieces rest context

/-- Model of EmailSender.render_template (src/mailer.py lines 19 to 25):
construct the template and render it, wrapping any failure in a message
prefixed with the text used by the source. -/
def render_template (template_content : String) (context : List (String × String)) :
    Except String String :=
  match parseTemplate template_content with
  | none => Except.error ("Template rendering error: unexpected end of template")
  | some ps => Except.ok (renderPieces ps context)

/-- Model of validate_email_template (src/utils.py lines 154 to 169): the
source only constructs Template(template_content), so validity is exactly
parseability. -/
def validate_email_template (template_content : String) : Bool :=
  (parseTemplate template_content).isSome

theorem lookupCtx_cons_unbound (context : List (String × String)) (v : String)
    (h : context.lookup v = none) (w : String) :
    lookupCtx ((v, "") :: context) w = lookupCtx context w := by
  unfold lookupCtx
  by_cases hw : w = v
  · subst hw
    simp [List.lookup, h]
  · simp [List.lookup, beq_false_of_ne hw]

theorem renderPieces_cons_unbound (ps : List Piece) (context : List (String × String))
    (v : String) (h : context.lookup v = none) :
    renderPieces ps ((v, "") :: context) = renderPieces ps context := by
  induction ps with
  | nil => rfl
  | cons p rest ih =>
    cases p with
    | lit c => simp [renderPieces, ih]
    | var w => simp [renderPieces, lookupCtx_cons_unbound context v h w, ih]

/-- C10: render_template substitutes every placeholder whose variable is not
bound in the context with the empty string (the default for undefined
variables) rather than leaving it unexpanded or raising: extending the
context with an unbound variable mapped to the empty string does not change
the output. It fails exactly when the template body itself is syntactically
malformed, which is exactly what validate_email_template checks; and two
calls on identical arguments yield identical output. -/
theorem C10_render_defaults (t : String) (context : List (String × String)) (v : String)
    (h : context.lookup v = none) :
    (render_template t context).isOk = validate_email_template t
      ∧ render_template t ((v, "") :: context) = render_template t context
      ∧ render_template t context = render_template t context := by
  refine ⟨?_, ?_, rfl⟩
  · unfold render_template validate_email_template
    cases parseTemplate t <;> rfl
  · unfold render_template
    cases parseTemplate t with
    | none => rfl
    | some ps => simp [renderPieces_cons_unbound ps context v h]

/-- C10 witness: the theorem evaluated on a concrete template and context. -/
theorem C10_render_defaults_witness :
    (render_template ("Hi \x7b\x7b name \x7d\x7d") []).isOk
        = validate_email_template ("Hi \x7b\x7b name \x7d\x7d")
      ∧ render_template ("Hi \x7b\x7b name \x7d\x7d") (("name", "") :: [])
        = render_template ("Hi \x7b\x7b name \x7d\x7d") []
      ∧ render_template ("Hi \x7b\x7b name \x7d\x7d") []
        = render_template ("Hi \x7b\x7b name \x7d\x7d") [] :=
  C10_render_defaults ("Hi \x7b\x7b name \x7d\x7d") [] ("name") rfl

/-- Configuration consumed by EmailSender.__init__ (src/mailer.py lines 11
to 17 together with src/config.py): sender identity, unsubscribe base URL
and batching parameters. The rate limit only controls sleeping, which has no
observable effect in the model, and is omitted. -/
structure EmailConfig where
  from_email : String
  from_name : String
  unsubscribe_url : String
  batch_size : Nat
  deriving Repr, DecidableEq

/-- Model of the SendGrid Mail object built by create_email_message
(src/mailer.py lines 47 to 60), including the custom tracking arguments. -/
structure Message where
  from_email : String
  from_name : String
  to_emails : String
  subject : String
  html_content : String
  plain_text_content : Option String
  campaign_id_arg : String
  subscriber_id_arg : String
  deriving Repr, DecidableEq

/-- Local part of an email address: everything before the first at sign, as
email.split with the at separator, first component. -/
def localPart (email : String) : String :=
  (email.splitOn ("@")).headD email

/-- The rendering context built by create_email_message (src/mailer.py lines
30 to 38). -/
def buildContext (cfg : EmailConfig) (s : Subscriber) (c : Campaign) :
    List (String × String) :=
  [("name", pyOr s.name (localPart s.email)),
   ("email", s.email),
   ("subject", c.subject),
   ("custom_message", pyOr s.custom_message ("")),
   ("from_name", cfg.from_name),
   ("unsubscribe_url", cfg.unsubscribe_url ++ "?token=" ++ s.unsubscribe_token),
   ("campaign_name", c.name)]

/-- Model of EmailSender.create_email_message (src/mailer.py lines 27 to
62): build the context, render the HTML template, render the text template
only when the campaign has a truthy text template, and assemble the outbound
message. A rendering failure is wrapped in the message the source uses. -/
def create_email_message (cfg : EmailConfig) (s : Subscriber) (c : Campaign) :
    Except String Message :=
  let context := buildContext cfg s c
  match render_template c.template_html context with
  | Except.error m =>
      Except.error ("Template rendering failed for " ++ s.email ++ ": " ++ m)
  | Except.ok html_content =>
    if pyTruthy c.template_text then
      match render_template (c.template_text.getD ("")) context with
      | Except.error m =>
          Except.error ("Template rendering failed for " ++ s.email ++ ": " ++ m)
      | Except.ok text_content =>
          Except.ok
            { from_email := cfg.from_email, from_name := cfg.from_name,
              to_emails := s.email, subject := c.subject,
              html_content := html_content,
              plain_text_content := some text_content,
              campaign_id_arg := toString c.id,
              subscriber_id_arg := pyStrOptNat s.id }
    else
      Except.ok
        { from_email := cfg.from_email, from_name := cfg.from_name,
          to_emails := s.email, subject := c.subject,
          html_content := html_content,
          plain_text_content := none,
          campaign_id_arg := toString c.id,
          subscriber_id_arg := pyStrOptNat s.id }

/-- C8: create_email_message builds the context with name equal to the
display name when one is present (non-empty), falling back to the local part
of the email address when it is absent; custom_message equal to the custom
message or the empty string; unsubscribe_url equal to the configured base
URL with the token appended as a query parameter; campaign_name equal to the
campaign name; and the composed message carries a text body exactly when the
campaign has a (truthy) text template. -/
theorem C8_compose_context (cfg : EmailConfig) (s : Subscriber) (c : Campaign) :
    ((s.name = none → (buildContext cfg s c).lookup ("name") = some (localPart s.email))
      ∧ (∀ n, s.name = some n → n ≠ "" →
          (buildContext cfg s c).lookup ("name") = some n))
      ∧ (buildContext cfg s c).lookup ("custom_message") = some (s.custom_message.getD (""))
      ∧ (buildContext cfg s c).lookup ("unsubscribe_url")
          = some (cfg.unsubscribe_url ++ "?token=" ++ s.unsubscribe_token)
      ∧ (buildContext cfg s c).lookup ("campaign_name") = some c.name
      ∧ (∀ msg, create_email_message cfg s c = Except.ok msg →
          msg.plain_text_content.isSome = pyTruthy c.template_text) := by
  refine ⟨⟨?_, ?_⟩, ?_, ?_, ?_, ?_⟩
  · intro h
    simp [buildContext, pyOr, h]
  · intro n h hn
    simp [buildContext, pyOr, h, String.isEmpty_iff, hn]
  · cases h : s.custom_message with
    | none =>
      simp only [buildContext, pyOr, h, Option.getD]
      rfl
    | some m =>
      by_cases hm : m = ""
      · subst hm
        simp only [buildContext, pyOr, h]
        rfl
      · have hm2 : m.isEmpty = false := by
          cases hh : m.isEmpty
          · rfl
          · exact absurd ((String.isEmpty_iff m).mp hh) hm
        simp only [buildContext, pyOr, h, hm2]
        rfl
  · rfl
  · rfl
  · intro msg hmsg
    unfold create_email_message at hmsg
    cases hh : render_template c.template_html (buildContext cfg s c) with
    | error m => simp [hh] at hmsg
    | ok html =>
      by_cases ht : pyTruthy c.template_text
      · cases hht : render_template (c.template_text.getD ("")) (buildContext cfg s c) with
        | error m => simp [hh, ht, hht] at hmsg
        | ok txt =>
          simp [hh, ht, hht] at hmsg
          subst hmsg
          simp [ht]
      · simp [hh, ht] at hmsg
        subst hmsg
        simp [ht]

/-- C8 witness: the theorem evaluated on a concrete configuration, two
concrete subscribers (one with a display name, one without) and a concrete
campaign with a text template. -/
theorem C8_compose_context_witness :
    (buildContext
        { from_email := "f@x.com", from_name := "F", unsubscribe_url := "http://u", batch_size := 100 }
        { id := some 2, email := "b@x.com", name := none, custom_message := none,
          is_active := true, unsubscribe_token := "t2" }
        { id := 1, name := "C", subject := "S", template_html := "Hi",
          template_text := some ("T"), status := "draft", total_recipients := 0,
          emails_sent := 0, emails_failed := 0 }).lookup ("name") = some (localPart ("b@x.com"))
      ∧ (buildContext
        { from_email := "f@x.com", from_name := "F", unsubscribe_url := "http://u", batch_size := 100 }
        { id := some 1, email := "a@x.com", name := some ("A"), custom_message := none,
          is_active := true, unsubscribe_token := "t1" }
        { id := 1, name := "C", subject := "S", template_html := "Hi",
          template_text := some ("T"), status := "draft", total_recipients := 0,
          emails_sent := 0, emails_failed := 0 }).lookup ("name") = some ("A") := by
  constructor
  · exact (C8_compose_context _ _ _).1.1 rfl
  · exact (C8_compose_context _ _ _).1.2 ("A") rfl (by decide)

/-- Outcome of one call of the external delivery client (sg.send in
src/mailer.py, self.mailer.send in src/mailer_old.py): either a provider
response carrying an optional message id and a status code, or a raised
exception carrying its string. -/
inductive DeliveryOutcome where
  | success (message_id : Option String) (status_code : Nat)
  | failure (msg : String)
  deriving Repr, DecidableEq

/-- Whether a delivery outcome is a success. -/
def DeliveryOutcome.isSuccess : DeliveryOutcome → Bool
  | DeliveryOutcome.success _ _ => true
  | DeliveryOutcome.failure _ => false

/-- Behaviour of the persistent store during one engine call: whether the
active-subscriber query raises (and with what message), and whether the n-th
db.session.commit of the call raises (and with what message). -/
structure StoreOracle where
  queryFail : Option String
  commitFail : Nat → Option String

/-- The store oracle of a fully available store: no query failure and no
commit failure. -/
def noFail : StoreOracle :=
  { queryFail := none, commitFail := fun _ => none }

/-- The SQLAlchemy session and database state threaded through an engine
call: the in-memory campaign object (mutated by assignments in the source),
the last committed campaign row, the committed EmailLog rows of this
campaign, the EmailLog rows added to the session but not yet committed, and
the number of commit calls made so far. -/
structure EngineState where
  campaign : Campaign
  committed : Campaign
  committedLogs : List EmailLog
  pendingLogs : List EmailLog
  commitCount : Nat
  deriving Repr, DecidableEq

/-- The fresh session state right after Campaign.query.get loaded the
campaign. -/
def initState (c : Campaign) : EngineState :=
  { campaign := c, committed := c, committedLogs := [], pendingLogs := [],
    commitCount := 0 }

/-- Model of db.session.commit: on success the campaign object and the
pending log rows become the committed state; on failure (store raises) the
committed state is unchanged and the exception message is returned together
with the session state at that point. -/
def tryCommit (o : StoreOracle) (st : EngineState) : Except (String × EngineState) EngineState :=
  match o.commitFail st.commitCount with
  | some m => Except.error (m, { st with commitCount := st.commitCount + 1 })
  | none =>
      Except.ok
        { st with committed := st.campaign,
                  committedLogs := st.committedLogs ++ st.pendingLogs,
                  pendingLogs := [],
                  commitCount := st.commitCount + 1 }

/-- The result dict returned by send_single_email (src/mailer.py lines 86
to 90 and 106 to 109). -/
structure SingleResult where
  success : Bool
  message_id : Option String
  status_code : Option Nat
  error : Option String
  deriving Repr, DecidableEq

/-- Model of EmailSender.send_single_email (src/mailer.py lines 64 to 109):
compose the message, invoke the delivery client, and on either failure fall
into the except branch which appends a failed EmailLog row and increments
emails_failed; on success append a sent EmailLog row carrying the provider
message id and increment emails_sent. The delivery outcome for this attempt
is passed in by the caller. Every path returns a result dict: no exception
escapes. -/
def send_single_email (cfg : EmailConfig) (dout : DeliveryOutcome)
    (s : Subscriber) (st : EngineState) : SingleResult × EngineState :=
  match create_email_message cfg s st.campaign with
  | Except.error m =>
      ({ success := false, message_id := none, status_code := none, error := some m },
       { st with
           campaign := { st.campaign with emails_failed := st.campaign.emails_failed + 1 },
           pendingLogs := st.pendingLogs ++
             [{ subscriber_id := s.id, campaign_id := st.campaign.id,
                sendgrid_message_id := none, status := "failed",
                error_message := some m }] })
  | Except.ok _ =>
    match dout with
    | DeliveryOutcome.failure m =>
        ({ success := false, message_id := none, status_code := none, error := some m },
         { st with
             campaign := { st.campaign with emails_failed := st.campaign.emails_failed + 1 },
             pendingLogs := st.pendingLogs ++
               [{ subscriber_id := s.id, campaign_id := st.campaign.id,
                  sendgrid_message_id := none, status := "failed",
                  error_message := some m }] })
    | DeliveryOutcome.success mid code =>
        ({ success := true, message_id := mid, status_code := some code, error := none },
         { st with
             campaign := { st.campaign with emails_sent := st.campaign.emails_sent + 1 },
             pendingLogs := st.pendingLogs ++
               [{ subscriber_id := s.id, campaign_id := st.campaign.id,
                  sendgrid_message_id := mid, status := "sent",
                  error_message := none }] })

/-- The inner per-recipient loop of send_campaign (src/mailer.py lines 142
to 153): process a list of subscribers sequentially, feeding each attempt
its delivery outcome (indexed by global attempt position) and accumulating
the sent and failed counts. The rate-limit sleep has no observable effect
and is not modelled. Returns the next attempt index, the two counters and
the session state. -/
def processList (cfg : EmailConfig) (delivery : Nat → DeliveryOutcome) :
    List Subscriber → Nat → Nat → Nat → EngineState → Nat × Nat × Nat × EngineState
  | [], k, sent, failed, st => (k, sent, failed, st)
  | s :: rest, k, sent, failed, st =>
    let r := send_single_email cfg (delivery k) s st
    if r.1.success then processList cfg delivery rest (k + 1) (sent + 1) failed r.2
    else processList cfg delivery rest (k + 1) sent (failed + 1) r.2

/-- Fuel-indexed chunking of a list into consecutive slices of size bs,
mirroring the Python loop for i in range(0, len(subscribers), batch_size)
with batch = subscribers i to i plus batch_size. The fuel argument makes the
recursion structural; any fuel at least the list length gives the true
chunking. -/
def chunksAux (bs : Nat) : Nat → List Subscriber → List (List Subscriber)
  | 0, _ => []
  | _, [] => []
  | fuel + 1, l => l.take bs :: chunksAux bs fuel (l.drop bs)

/-- Partition a list into batches of size bs (bs positive; the engine
raises before reaching the loop when batch_size is zero). -/
def chunks (bs : Nat) (l : List Subscriber) : List (List Subscriber) :=
  chunksAux bs l.length l

/-- The batch loop of send_campaign (src/mailer.py lines 139 to 160):
process each batch with the inner loop, then commit the batch; the
inter-batch sleep has no observable effect and is not modelled. A commit
failure raises, carrying the session state at that point. -/
def runBatches (cfg : EmailConfig) (delivery : Nat → DeliveryOutcome) (o : StoreOracle) :
    List (List Subscriber) → Nat → Nat → Nat → EngineState →
    Except (String × EngineState) (Nat × Nat × EngineState)
  | [], _, sent, failed, st => Except.ok (sent, failed, st)
  | batch :: rest, k, sent, failed, st =>
    let r := processList cfg delivery batch k sent failed st
    match tryCommit o r.2.2.2 with
    | Except.error e => Except.error e
    | Except.ok st2 => runBatches cfg delivery o rest r.1 r.2.1 r.2.2.1 st2

/-- Errors raised by send_campaign and send_test_email, one constructor per
raise site of the source: campaign absent (src/mailer.py line 115), wrong
status (line 118), a raw store exception propagating uncaught (the commit at
line 123, or the commit inside the except branch at line 180 itself
failing), and the wrapped error of the except branch (line 181). -/
inductive SendErr where
  | notFound
  | invalidState (status : String)
  | storeError (msg : String)
  | sendFailed (msg : String)
  deriving Repr, DecidableEq

/-- The result dict returned by send_campaign (src/mailer.py lines 170 to
175). -/
structure SendResult where
  success : Bool
  sent : Nat
  failed : Nat
  total : Nat
  deriving Repr, DecidableEq

/-- The body of the try block of send_campaign (src/mailer.py lines 125 to
175): query the active subscribers, record total_recipients and commit,
truncate to the first three subscribers in test mode, run the batch loop
(Python range raises ValueError when the step batch_size is zero), set the
final status from the failure count, commit, and build the result dict. Any
raise inside the block is returned as an error carrying the session state at
the raise. -/
def sendCampaignBody (cfg : EmailConfig) (o : StoreOracle)
    (delivery : Nat → DeliveryOutcome) (allSubs : List Subscriber)
    (test_mode : Bool) (st0 : EngineState) :
    Except (String × EngineState) (SendResult × EngineState) :=
  match o.queryFail with
  | some m => Except.error (m, st0)
  | none =>
    let subs := allSubs.filter (fun s => s.is_active)
    let st1 := { st0 with
      campaign := { st0.campaign with total_recipients := subs.length } }
    match tryCommit o st1 with
    | Except.error e => Except.error e
    | Except.ok st2 =>
      let subsUsed := if test_mode then subs.take 3 else subs
      if cfg.batch_size = 0 then
        Except.error ("range() arg 3 must not be zero", st2)
      else
        match runBatches cfg delivery o (chunks cfg.batch_size subsUsed) 0 0 0 st2 with
        | Except.error e => Except.error e
        | Except.ok (sent, failed, st3) =>
          let st4 := { st3 with
            campaign := { st3.campaign with
              status := if failed = 0 then "completed" else "completed_with_errors" } }
          match tryCommit o st4 with
          | Except.error e => Except.error e
          | Except.ok st5 =>
              Except.ok
                ({ success := true, sent := sent, failed := failed,
                   total := subsUsed.length }, st5)

/-- Model of EmailSender.send_campaign (src/mailer.py lines 111 to 181).
The campaign argument is the result of Campaign.query.get; allSubs is the
full subscriber table, filtered for active rows inside the body exactly as
the source queries them. Returns the raised error or the result dict,
together with the final session state (absent when the campaign was not
found). The failure branch of the try sets the status to failed and
commits before re-raising the wrapped error; if that commit itself raises,
the raw store error propagates instead. -/
def send_campaign_model (cfg : EmailConfig) (o : StoreOracle)
    (delivery : Nat → DeliveryOutcome) (campaign : Option Campaign)
    (allSubs : List Subscriber) (test_mode : Bool) :
    Except SendErr SendResult × Option EngineState :=
  match campaign with
  | none => (Except.error SendErr.notFound, none)
  | some c =>
    if c.status = "draft" ∨ c.status = "scheduled" then
      let st0 := { initState c with campaign := { c with status := "sending" } }
      match tryCommit o st0 with
      | Except.error (m, st) => (Except.error (SendErr.storeError m), some st)
      | Except.ok st1 =>
        match sendCampaignBody cfg o delivery allSubs test_mode st1 with
        | Except.ok (r, st) => (Except.ok r, some st)
        | Except.error (m, st) =>
          let st2 := { st with campaign := { st.campaign with status := "failed" } }
          match tryCommit o st2 with
          | Except.error (m2, st3) => (Except.error (SendErr.storeError m2), some st3)
          | Except.ok st3 =>
              (Except.error (SendErr.sendFailed ("Campaign sending failed: " ++ m)), some st3)
    else
      (Except.error (SendErr.invalidState c.status), some (initState c))

/-- Model of EmailSender.send_test_email (src/mailer.py lines 183 to 203):
load the campaign, build an ephemeral subscriber from the address (the
Subscriber constructor lowercases the email and draws a fresh unsubscribe
token, passed here as the token argument; the object is never added to the
session, so its id is none), and run send_single_email on it against the
fresh session state. Nothing is committed. -/
def send_test_email_model (cfg : EmailConfig) (dout : DeliveryOutcome)
    (campaign : Option Campaign) (test_email : String) (token : String) :
    Except SendErr SingleResult × Option EngineState :=
  match campaign with
  | none => (Except.error SendErr.notFound, none)
  | some c =>
    let test_subscriber : Subscriber :=
      { id := none, email := test_email.toLower, name := some ("Test User"),
        custom_message := some ("This is a test message."), is_active := true,
        unsubscribe_token := token }
    let r := send_single_email cfg dout test_subscriber (initState c)
    (Except.ok r.1, some r.2)

/-- The fields of a campaign that create_email_message reads: everything
except status and the three counters. Two campaigns agreeing on them compose
identically. -/
def sameCompose (a c : Campaign) : Prop :=
  a.id = c.id ∧ a.name = c.name ∧ a.subject = c.subject
    ∧ a.template_html = c.template_html ∧ a.template_text = c.template_text

theorem create_email_message_congr (cfg : EmailConfig) (s : Subscriber)
    {a c : Campaign} (h : sameCompose a c) :
    create_email_message cfg s a = create_email_message cfg s c := by
  obtain ⟨h1, h2, h3, h4, h5⟩ := h
  simp only [create_email_message, buildContext, h1, h2, h3, h4, h5]

/-- Whether the attempt at position k on subscriber s succeeds: the message
composes and the delivery client accepts it. -/
def attemptOk (cfg : EmailConfig) (delivery : Nat → DeliveryOutcome)
    (c : Campaign) (k : Nat) (s : Subscriber) : Bool :=
  (create_email_message cfg s c).isOk && (delivery k).isSuccess

/-- The EmailLog row that the attempt at position k on subscriber s appends
to the session. -/
def mkLog (cfg : EmailConfig) (delivery : Nat → DeliveryOutcome)
    (c : Campaign) (k : Nat) (s : Subscriber) : EmailLog :=
  match create_email_message cfg s c with
  | Except.error m =>
      { subscriber_id := s.id, campaign_id := c.id, sendgrid_message_id := none,
        status := "failed", error_message := some m }
  | Except.ok _ =>
    match delivery k with
    | DeliveryOutcome.failure m =>
        { subscriber_id := s.id, campaign_id := c.id, sendgrid_message_id := none,
          status := "failed", error_message := some m }
    | DeliveryOutcome.success mid _ =>
        { subscriber_id := s.id, campaign_id := c.id, sendgrid_message_id := mid,
          status := "sent", error_message := none }

/-- Number of successful attempts on a subscriber list starting at attempt
position k. -/
def countOk (cfg : EmailConfig) (delivery : Nat → DeliveryOutcome) (c : Campaign) :
    List Subscriber → Nat → Nat
  | [], _ => 0
  | s :: rest, k =>
      (if attemptOk cfg delivery c k s then 1 else 0) + countOk cfg delivery c rest (k + 1)

/-- Number of failed attempts on a subscriber list starting at attempt
position k. -/
def countFail (cfg : EmailConfig) (delivery : Nat → DeliveryOutcome) (c : Campaign) :
    List Subscriber → Nat → Nat
  | [], _ => 0
  | s :: rest, k =>
      (if attemptOk cfg delivery c k s then 0 else 1) + countFail cfg delivery c rest (k + 1)

/-- The EmailLog rows appended for a subscriber list starting at attempt
position k, in order. -/
def logsFor (cfg : EmailConfig) (delivery : Nat → DeliveryOutcome) (c : Campaign) :
    List Subscriber → Nat → List EmailLog
  | [], _ => []
  | s :: rest, k => mkLog cfg delivery c k s :: logsFor cfg delivery c rest (k + 1)

theorem countOk_add_countFail (cfg : EmailConfig) (delivery : Nat → DeliveryOutcome)
    (c : Campaign) : ∀ (subs : List Subscriber) (k : Nat),
    countOk cfg delivery c subs k + countFail cfg delivery c subs k = subs.length := by
  intro subs
  induction subs with
  | nil => intro k; rfl
  | cons s rest ih =>
    intro k
    have h := ih (k + 1)
    simp only [countOk, countFail, List.length_cons]
    cases attemptOk cfg delivery c k s <;> simp <;> omega

/-- Unfolding of send_single_email when composition fails. -/
theorem send_single_email_compose_error (cfg : EmailConfig) (dout : DeliveryOutcome)
    (s : Subscriber) (st : EngineState) (m : String)
    (h : create_email_message cfg s st.campaign = Except.error m) :
    send_single_email cfg dout s st =
      ({ success := false, message_id := none, status_code := none, error := some m },
       { st with
           campaign := { st.campaign with emails_failed := st.campaign.emails_failed + 1 },
           pendingLogs := st.pendingLogs ++
             [{ subscriber_id := s.id, campaign_id := st.campaign.id,
                sendgrid_message_id := none, status := "failed",
                error_message := some m }] }) := by
  simp [send_single_email, h]

/-- Unfolding of send_single_email when composition succeeds and delivery
fails. -/
theorem send_single_email_delivery_error (cfg : EmailConfig) (s : Subscriber)
    (st : EngineState) (msg : Message) (m : String)
    (h : create_email_message cfg s st.campaign = Except.ok msg) :
    send_single_email cfg (DeliveryOutcome.failure m) s st =
      ({ success := false, message_id := none, status_code := none, error := some m },
       { st with
           campaign := { st.campaign with emails_failed := st.campaign.emails_failed + 1 },
           pendingLogs := st.pendingLogs ++
             [{ subscriber_id := s.id, campaign_id := st.campaign.id,
                sendgrid_message_id := none, status := "failed",
                error_message := some m }] }) := by
  simp [send_single_email, h]

/-- Unfolding of send_single_email when composition and delivery succeed. -/
theorem send_single_email_success (cfg : EmailConfig) (s : Subscriber)
    (st : EngineState) (msg : Message) (mid : Option String) (code : Nat)
    (h : create_email_message cfg s st.campaign = Except.ok msg) :
    send_single_email cfg (DeliveryOutcome.success mid code) s st =
      ({ success := true, message_id := mid, status_code := some code, error := none },
       { st with
           campaign := { st.campaign with emails_sent := st.campaign.emails_sent + 1 },
           pendingLogs := st.pendingLogs ++
             [{ subscriber_id := s.id, campaign_id := st.campaign.id,
                sendgrid_message_id := mid, status := "sent",
                error_message := none }] }) := by
  simp [send_single_email, h]

/-- Closed form of the inner per-recipient loop: starting from a session
whose campaign composes like c, processing a subscriber list advances the
attempt index by its length, adds the success and failure counts to the
accumulators and to the campaign counters, appends one log row per
subscriber to the pending rows, and touches nothing else. -/
theorem processList_eq (cfg : EmailConfig) (delivery : Nat → DeliveryOutcome)
    (c : Campaign) : ∀ (subs : List Subscriber) (k sent failed : Nat)
    (st : EngineState), sameCompose st.campaign c →
    processList cfg delivery subs k sent failed st =
      (k + subs.length, sent + countOk cfg delivery c subs k,
       failed + countFail cfg delivery c subs k,
       { st with
           campaign := { st.campaign with
             emails_sent := st.campaign.emails_sent + countOk cfg delivery c subs k,
             emails_failed := st.campaign.emails_failed + countFail cfg delivery c subs k },
           pendingLogs := st.pendingLogs ++ logsFor cfg delivery c subs k }) := by
  intro subs
  induction subs with
  | nil =>
    intro k sent failed st _
    simp only [processList, countOk, countFail, logsFor, List.length_nil,
      Nat.add_zero, List.append_nil]
  | cons s rest ih =>
    intro k sent failed st hsc
    have hc : create_email_message cfg s st.campaign = create_email_message cfg s c :=
      create_email_message_congr cfg s hsc
    have hid : st.campaign.id = c.id := hsc.1
    cases hcc : create_email_message cfg s c with
    | error m =>
      have hstep := send_single_email_compose_error cfg (delivery k) s st m (hc.trans hcc)
      rw [processList, hstep]
      simp only
      rw [if_neg (by simp)]
      rw [ih]
      · simp only [countOk, countFail, logsFor, attemptOk, mkLog, hcc, List.length_cons,
          Except.isOk, Bool.false_and, hid]
        simp [Except.toBool, Except.isOk, DeliveryOutcome.isSuccess, hcc,
          Nat.add_assoc, Nat.add_comm, Nat.add_left_comm]
      · exact hsc
    | ok msg =>
      cases hd : delivery k with
      | failure m =>
        have hstep := send_single_email_delivery_error cfg s st msg m (hc.trans hcc)
        rw [processList, hd, hstep]
        simp only
        rw [if_neg (by simp)]
        rw [ih]
        · simp only [countOk, countFail, logsFor, attemptOk, mkLog, hcc, hd,
            List.length_cons, DeliveryOutcome.isSuccess, Except.isOk, Bool.and_false, hid]
          simp [Except.toBool, Except.isOk, DeliveryOutcome.isSuccess, hcc, hd,
            Nat.add_assoc, Nat.add_comm, Nat.add_left_comm]
        · exact hsc
      | success mid code =>
        have hstep := send_single_email_success cfg s st msg mid code (hc.trans hcc)
        rw [processList, hd, hstep]
        simp only
        rw [if_pos (by simp)]
        rw [ih]
        · simp only [countOk, countFail, logsFor, attemptOk, mkLog, hcc, hd,
            List.length_cons, DeliveryOutcome.isSuccess, Except.isOk, Bool.and_true, hid]
          simp [Except.toBool, Except.isOk, DeliveryOutcome.isSuccess, hcc, hd,
            Nat.add_assoc, Nat.add_comm, Nat.add_left_comm]
        · exact hsc

theorem countOk_append (cfg : EmailConfig) (delivery : Nat → DeliveryOutcome)
    (c : Campaign) : ∀ (l1 l2 : List Subscriber) (k : Nat),
    countOk cfg delivery c (l1 ++ l2) k
      = countOk cfg delivery c l1 k + countOk cfg delivery c l2 (k + l1.length) := by
  intro l1
  induction l1 with
  | nil => intro l2 k; simp [countOk]
  | cons s rest ih =>
    intro l2 k
    have hidx : k + 1 + rest.length = k + (rest.length + 1) := by omega
    simp only [List.cons_append, countOk, List.append_eq, ih, List.length_cons, hidx]
    omega

theorem countFail_append (cfg : EmailConfig) (delivery : Nat → DeliveryOutcome)
    (c : Campaign) : ∀ (l1 l2 : List Subscriber) (k : Nat),
    countFail cfg delivery c (l1 ++ l2) k
      = countFail cfg delivery c l1 k + countFail cfg delivery c l2 (k + l1.length) := by
  intro l1
  induction l1 with
  | nil => intro l2 k; simp [countFail]
  | cons s rest ih =>
    intro l2 k
    have hidx : k + 1 + rest.length = k + (rest.length + 1) := by omega
    simp only [List.cons_append, countFail, List.append_eq, ih, List.length_cons, hidx]
    omega

theorem logsFor_append (cfg : EmailConfig) (delivery : Nat → DeliveryOutcome)
    (c : Campaign) : ∀ (l1 l2 : List Subscriber) (k : Nat),
    logsFor cfg delivery c (l1 ++ l2) k
      = logsFor cfg delivery c l1 k ++ logsFor cfg delivery c l2 (k + l1.length) := by
  intro l1
  induction l1 with
  | nil => intro l2 k; simp [logsFor]
  | cons s rest ih =>
    intro l2 k
    have hidx : k + 1 + rest.length = k + (rest.length + 1) := by omega
    simp only [List.cons_append, logsFor, List.append_eq, ih, List.length_cons, hidx]

theorem chunksAux_flatten (bs : Nat) (hb : bs ≠ 0) : ∀ (fuel : Nat) (l : List Subscriber),
    l.length ≤ fuel → (chunksAux bs fuel l).flatten = l := by
  intro fuel
  induction fuel with
  | zero =>
    intro l hl
    have : l = [] := List.eq_nil_of_length_eq_zero (Nat.le_zero.mp hl)
    subst this
    rfl
  | succ n ih =>
    intro l hl
    cases l with
    | nil => rfl
    | cons x xs =>
      have hl2 : xs.length + 1 ≤ n + 1 := by
        simpa using hl
      have hrec : ((x :: xs).drop bs).length ≤ n := by
        simp only [List.length_drop, List.length_cons]
        omega
      simp only [chunksAux, List.flatten_cons, ih _ hrec, List.take_append_drop]

theorem chunks_flatten (bs : Nat) (hb : bs ≠ 0) (l : List Subscriber) :
    (chunks bs l).flatten = l :=
  chunksAux_flatten bs hb l.length l (Nat.le_refl _)

/-- Unfolding of tryCommit when the store accepts the commit. -/
theorem tryCommit_ok (o : StoreOracle) (st : EngineState)
    (h : o.commitFail st.commitCount = none) :
    tryCommit o st =
      Except.ok
        { st with committed := st.campaign,
                  committedLogs := st.committedLogs ++ st.pendingLogs,
                  pendingLogs := [],
                  commitCount := st.commitCount + 1 } := by
  simp [tryCommit, h]

/-- Under the failure-free store every commit succeeds. -/
theorem tryCommit_noFail (st : EngineState) :
    tryCommit noFail st =
      Except.ok
        { st with committed := st.campaign,
                  committedLogs := st.committedLogs ++ st.pendingLogs,
                  pendingLogs := [],
                  commitCount := st.commitCount + 1 } := rfl

/-- Under a failure-free store, the batch loop processes the concatenation
of its batches exactly as the flat inner loop would, committing the log
rows along the way: the run succeeds, the counters accumulate the flat
success and failure counts, the campaign advances accordingly, and the
committed and pending log rows together are the old ones plus one row per
subscriber. The final commit inside the loop leaves the pending rows of the
last batch committed. -/
theorem runBatches_noFail (cfg : EmailConfig) (delivery : Nat → DeliveryOutcome)
    (c : Campaign) : ∀ (batches : List (List Subscriber)) (k sent failed : Nat)
    (st : EngineState), sameCompose st.campaign c →
    ∃ st2, runBatches cfg delivery noFail batches k sent failed st =
        Except.ok (sent + countOk cfg delivery c batches.flatten k,
                   failed + countFail cfg delivery c batches.flatten k, st2)
      ∧ st2.campaign = { st.campaign with
          emails_sent := st.campaign.emails_sent + countOk cfg delivery c batches.flatten k,
          emails_failed := st.campaign.emails_failed + countFail cfg delivery c batches.flatten k }
      ∧ st2.committedLogs ++ st2.pendingLogs
          = st.committedLogs ++ st.pendingLogs ++ logsFor cfg delivery c batches.flatten k := by
  intro batches
  induction batches with
  | nil =>
    intro k sent failed st hsc
    refine ⟨st, ?_, ?_, ?_⟩
    · simp [runBatches, countOk, countFail]
    · simp [countOk, countFail]
    · simp [logsFor]
  | cons b rest ih =>
    intro k sent failed st hsc
    rw [runBatches]
    rw [processList_eq cfg delivery c b k sent failed st hsc]
    rw [tryCommit_noFail]
    obtain ⟨st2, hrun, hcamp, hlogs⟩ :=
      ih (k + b.length) (sent + countOk cfg delivery c b k)
        (failed + countFail cfg delivery c b k)
        ({ campaign := { st.campaign with
              emails_sent := st.campaign.emails_sent + countOk cfg delivery c b k,
              emails_failed := st.campaign.emails_failed + countFail cfg delivery c b k },
           committed := { st.campaign with
              emails_sent := st.campaign.emails_sent + countOk cfg delivery c b k,
              emails_failed := st.campaign.emails_failed + countFail cfg delivery c b k },
           committedLogs := st.committedLogs ++ (st.pendingLogs ++ logsFor cfg delivery c b k),
           pendingLogs := [],
           commitCount := st.commitCount + 1 }) hsc
    refine ⟨st2, ?_, ?_, ?_⟩
    · show runBatches cfg delivery noFail rest (k + b.length)
          (sent + countOk cfg delivery c b k) (failed + countFail cfg delivery c b k)
          ({ campaign := { st.campaign with
                emails_sent := st.campaign.emails_sent + countOk cfg delivery c b k,
                emails_failed := st.campaign.emails_failed + countFail cfg delivery c b k },
             committed := { st.campaign with
                emails_sent := st.campaign.emails_sent + countOk cfg delivery c b k,
                emails_failed := st.campaign.emails_failed + countFail cfg delivery c b k },
             committedLogs := st.committedLogs ++ (st.pendingLogs ++ logsFor cfg delivery c b k),
             pendingLogs := [],
             commitCount := st.commitCount + 1 })
        = Except.ok (sent + countOk cfg delivery c (b :: rest).flatten k,
                     failed + countFail cfg delivery c (b :: rest).flatten k, st2)
      rw [hrun]
      simp only [List.flatten_cons, countOk_append, countFail_append, Prod.mk.injEq,
        Except.ok.injEq]
      exact ⟨by omega, by omega, trivial⟩
    · rw [hcamp]
      simp [List.flatten_cons, countOk_append, countFail_append, Nat.add_assoc]
    · rw [hlogs]
      simp [List.flatten_cons, logsFor_append, List.append_assoc]

/-- The active-subscriber query of the engine. -/
def activeSubscribers (allSubs : List Subscriber) : List Subscriber :=
  allSubs.filter (fun s => s.is_active)

/-- The recipients actually attempted: the first three active subscribers in
store order in test mode, all of them otherwise. -/
def usedSubscribers (allSubs : List Subscriber) (tm : Bool) : List Subscriber :=
  if tm then (activeSubscribers allSubs).take 3 else activeSubscribers allSubs


theorem sameCompose_refl (c : Campaign) : sameCompose c c :=
  ⟨rfl, rfl, rfl, rfl, rfl⟩

theorem attemptOk_congr (cfg : EmailConfig) (delivery : Nat → DeliveryOutcome)
    {a b : Campaign} (h : sameCompose a b) (k : Nat) (s : Subscriber) :
    attemptOk cfg delivery a k s = attemptOk cfg delivery b k s := by
  unfold attemptOk
  rw [create_email_message_congr cfg s h]

theorem mkLog_congr (cfg : EmailConfig) (delivery : Nat → DeliveryOutcome)
    {a b : Campaign} (h : sameCompose a b) (k : Nat) (s : Subscriber) :
    mkLog cfg delivery a k s = mkLog cfg delivery b k s := by
  unfold mkLog
  rw [create_email_message_congr cfg s h, h.1]

theorem countOk_congr (cfg : EmailConfig) (delivery : Nat → DeliveryOutcome)
    {a b : Campaign} (h : sameCompose a b) : ∀ (subs : List Subscriber) (k : Nat),
    countOk cfg delivery a subs k = countOk cfg delivery b subs k := by
  intro subs
  induction subs with
  | nil => intro k; rfl
  | cons s rest ih =>
    intro k
    simp only [countOk, attemptOk_congr cfg delivery h k s, ih (k + 1)]

theorem countFail_congr (cfg : EmailConfig) (delivery : Nat → DeliveryOutcome)
    {a b : Campaign} (h : sameCompose a b) : ∀ (subs : List Subscriber) (k : Nat),
    countFail cfg delivery a subs k = countFail cfg delivery b subs k := by
  intro subs
  induction subs with
  | nil => intro k; rfl
  | cons s rest ih =>
    intro k
    simp only [countFail, attemptOk_congr cfg delivery h k s, ih (k + 1)]

theorem logsFor_congr (cfg : EmailConfig) (delivery : Nat → DeliveryOutcome)
    {a b : Campaign} (h : sameCompose a b) : ∀ (subs : List Subscriber) (k : Nat),
    logsFor cfg delivery a subs k = logsFor cfg delivery b subs k := by
  intro subs
  induction subs with
  | nil => intro k; rfl
  | cons s rest ih =>
    intro k
    simp only [logsFor, mkLog_congr cfg delivery h k s, ih (k + 1)]

/-- Closed form of the batch loop under a failure-free store: it returns the
flat counts over the concatenated batches; when at least one batch exists
the final session has the updated campaign committed, all log rows
committed, no pending rows, and one commit per batch. -/
theorem runBatches_noFail_eq (cfg : EmailConfig) (delivery : Nat → DeliveryOutcome) :
    ∀ (batches : List (List Subscriber)) (k sent failed : Nat) (st : EngineState),
    runBatches cfg delivery noFail batches k sent failed st =
      Except.ok (sent + countOk cfg delivery st.campaign batches.flatten k,
                 failed + countFail cfg delivery st.campaign batches.flatten k,
                 if batches.isEmpty then st else
                 { campaign := { st.campaign with
                     emails_sent := st.campaign.emails_sent
                       + countOk cfg delivery st.campaign batches.flatten k,
                     emails_failed := st.campaign.emails_failed
                       + countFail cfg delivery st.campaign batches.flatten k },
                   committed := { st.campaign with
                     emails_sent := st.campaign.emails_sent
                       + countOk cfg delivery st.campaign batches.flatten k,
                     emails_failed := st.campaign.emails_failed
                       + countFail cfg delivery st.campaign batches.flatten k },
                   committedLogs := st.committedLogs ++ st.pendingLogs
                     ++ logsFor cfg delivery st.campaign batches.flatten k,
                   pendingLogs := [],
                   commitCount := st.commitCount + batches.length }) := by
  intro batches
  induction batches with
  | nil =>
    intro k sent failed st
    simp [runBatches, countOk, countFail]
  | cons b rest ih =>
    intro k sent failed st
    rw [runBatches]
    rw [processList_eq cfg delivery st.campaign b k sent failed st (sameCompose_refl _)]
    rw [tryCommit_noFail]
    dsimp only
    rw [ih]
    have hcg : sameCompose
        ({ id := st.campaign.id, name := st.campaign.name, subject := st.campaign.subject,
           template_html := st.campaign.template_html,
           template_text := st.campaign.template_text, status := st.campaign.status,
           total_recipients := st.campaign.total_recipients,
           emails_sent := st.campaign.emails_sent + countOk cfg delivery st.campaign b k,
           emails_failed := st.campaign.emails_failed
             + countFail cfg delivery st.campaign b k } : Campaign) st.campaign :=
      ⟨rfl, rfl, rfl, rfl, rfl⟩
    rw [countOk_congr cfg delivery hcg, countFail_congr cfg delivery hcg,
        logsFor_congr cfg delivery hcg]
    cases rest with
    | nil =>
      simp only [List.flatten_cons, List.flatten_nil, List.append_nil, List.isEmpty_nil,
        List.isEmpty_cons, countOk_append, countFail_append, logsFor_append, countOk,
        countFail, logsFor, List.length_cons, List.length_nil]
      simp [Nat.add_assoc, List.append_assoc]
    | cons r rs =>
      simp only [List.flatten_cons, List.isEmpty_cons, countOk_append, countFail_append,
        logsFor_append, List.length_cons]
      simp [Nat.add_assoc, List.append_assoc, Nat.add_comm, Nat.add_left_comm]

theorem chunks_isEmpty_imp (bs : Nat) (l : List Subscriber)
    (h : (chunks bs l).isEmpty = true) : l = [] := by
  cases l with
  | nil => rfl
  | cons x xs =>
    exfalso
    rw [chunks] at h
    simp only [List.length_cons, chunksAux, List.isEmpty_cons] at h
    exact Bool.noConfusion h

/-- Closed form of the try-block body of send_campaign under a failure-free
store and positive batch size: the body succeeds, returning the flat counts
over the attempted recipients and the fully committed final session. -/
theorem sendCampaignBody_noFail_eq (cfg : EmailConfig) (delivery : Nat → DeliveryOutcome)
    (allSubs : List Subscriber) (tm : Bool) (st0 : EngineState)
    (hb : cfg.batch_size ≠ 0) :
    sendCampaignBody cfg noFail delivery allSubs tm st0 =
      Except.ok
        ({ success := true,
           sent := countOk cfg delivery st0.campaign (usedSubscribers allSubs tm) 0,
           failed := countFail cfg delivery st0.campaign (usedSubscribers allSubs tm) 0,
           total := (usedSubscribers allSubs tm).length },
         { campaign := { st0.campaign with
             status := (if countFail cfg delivery st0.campaign (usedSubscribers allSubs tm) 0 = 0
               then "completed" else "completed_with_errors"),
             total_recipients := (activeSubscribers allSubs).length,
             emails_sent := st0.campaign.emails_sent
               + countOk cfg delivery st0.campaign (usedSubscribers allSubs tm) 0,
             emails_failed := st0.campaign.emails_failed
               + countFail cfg delivery st0.campaign (usedSubscribers allSubs tm) 0 },
           committed := { st0.campaign with
             status := (if countFail cfg delivery st0.campaign (usedSubscribers allSubs tm) 0 = 0
               then "completed" else "completed_with_errors"),
             total_recipients := (activeSubscribers allSubs).length,
             emails_sent := st0.campaign.emails_sent
               + countOk cfg delivery st0.campaign (usedSubscribers allSubs tm) 0,
             emails_failed := st0.campaign.emails_failed
               + countFail cfg delivery st0.campaign (usedSubscribers allSubs tm) 0 },
           committedLogs := st0.committedLogs ++ st0.pendingLogs
             ++ logsFor cfg delivery st0.campaign (usedSubscribers allSubs tm) 0,
           pendingLogs := [],
           commitCount := st0.commitCount + 2
             + (chunks cfg.batch_size (usedSubscribers allSubs tm)).length }) := by
  simp only [usedSubscribers, activeSubscribers]
  unfold sendCampaignBody
  have hq : noFail.queryFail = none := rfl
  rw [hq]
  dsimp only
  rw [tryCommit_noFail]
  dsimp only
  rw [if_neg hb]
  rw [runBatches_noFail_eq]
  dsimp only
  simp only [Nat.zero_add]
  have hcg : sameCompose
      ({ id := st0.campaign.id, name := st0.campaign.name, subject := st0.campaign.subject,
         template_html := st0.campaign.template_html,
         template_text := st0.campaign.template_text, status := st0.campaign.status,
         total_recipients := (allSubs.filter (fun s => s.is_active)).length,
         emails_sent := st0.campaign.emails_sent,
         emails_failed := st0.campaign.emails_failed } : Campaign) st0.campaign :=
    ⟨rfl, rfl, rfl, rfl, rfl⟩
  rw [chunks_flatten cfg.batch_size hb]
  rw [countOk_congr cfg delivery hcg, countFail_congr cfg delivery hcg,
      logsFor_congr cfg delivery hcg]
  cases hE : (chunks cfg.batch_size
      (if tm then (allSubs.filter (fun s => s.is_active)).take 3
       else allSubs.filter (fun s => s.is_active))).isEmpty with
  | true =>
    have hused := chunks_isEmpty_imp _ _ hE
    rw [hused]
    rw [tryCommit_noFail]
    simp [countOk, countFail, logsFor, chunks, chunksAux, Nat.add_assoc,
      Nat.add_comm, Nat.add_left_comm]
  | false =>
    rw [tryCommit_noFail]
    simp [List.append_assoc, Nat.add_assoc, Nat.add_comm, Nat.add_left_comm]
    omega

/-- Closed form of send_campaign on a found campaign in a sendable status,
under a failure-free store and positive batch size: the call returns the
result dict with the flat counts over the attempted recipients, and the
final session has the campaign committed with total_recipients set to the
full active count, the counters advanced by the counts, the final status
chosen by the failure count, and one committed log row per attempted
recipient. -/
theorem send_campaign_noFail_eq (cfg : EmailConfig) (delivery : Nat → DeliveryOutcome)
    (c : Campaign) (allSubs : List Subscriber) (tm : Bool)
    (hb : cfg.batch_size ≠ 0) (hst : c.status = "draft" ∨ c.status = "scheduled") :
    send_campaign_model cfg noFail delivery (some c) allSubs tm =
      (Except.ok
        { success := true,
          sent := countOk cfg delivery c (usedSubscribers allSubs tm) 0,
          failed := countFail cfg delivery c (usedSubscribers allSubs tm) 0,
          total := (usedSubscribers allSubs tm).length },
       some
        { campaign := { c with
            status := (if countFail cfg delivery c (usedSubscribers allSubs tm) 0 = 0
              then "completed" else "completed_with_errors"),
            total_recipients := (activeSubscribers allSubs).length,
            emails_sent := c.emails_sent
              + countOk cfg delivery c (usedSubscribers allSubs tm) 0,
            emails_failed := c.emails_failed
              + countFail cfg delivery c (usedSubscribers allSubs tm) 0 },
          committed := { c with
            status := (if countFail cfg delivery c (usedSubscribers allSubs tm) 0 = 0
              then "completed" else "completed_with_errors"),
            total_recipients := (activeSubscribers allSubs).length,
            emails_sent := c.emails_sent
              + countOk cfg delivery c (usedSubscribers allSubs tm) 0,
            emails_failed := c.emails_failed
              + countFail cfg delivery c (usedSubscribers allSubs tm) 0 },
          committedLogs := logsFor cfg delivery c (usedSubscribers allSubs tm) 0,
          pendingLogs := [],
          commitCount := 3 + (chunks cfg.batch_size (usedSubscribers allSubs tm)).length }) := by
  unfold send_campaign_model
  dsimp only
  rw [if_pos hst]
  dsimp only [initState]
  rw [tryCommit_noFail]
  dsimp only
  rw [sendCampaignBody_noFail_eq cfg delivery allSubs tm _ hb]
  dsimp only
  have hcg : sameCompose
      ({ id := c.id, name := c.name, subject := c.subject,
         template_html := c.template_html, template_text := c.template_text,
         status := "sending", total_recipients := c.total_recipients,
         emails_sent := c.emails_sent, emails_failed := c.emails_failed } : Campaign) c :=
    ⟨rfl, rfl, rfl, rfl, rfl⟩
  rw [countOk_congr cfg delivery hcg, countFail_congr cfg delivery hcg,
      logsFor_congr cfg delivery hcg]
  simp [Nat.add_assoc, Nat.add_comm, Nat.add_left_comm]

theorem usedSubscribers_false (allSubs : List Subscriber) :
    usedSubscribers allSubs false = activeSubscribers allSubs := rfl

theorem usedSubscribers_true (allSubs : List Subscriber) :
    usedSubscribers allSubs true = (activeSubscribers allSubs).take 3 := rfl

theorem countOk_all (cfg : EmailConfig) (delivery : Nat → DeliveryOutcome) (c : Campaign) :
    ∀ (subs : List Subscriber) (k : Nat),
    (∀ s ∈ subs, ∀ j, attemptOk cfg delivery c j s = true) →
    countOk cfg delivery c subs k = subs.length
      ∧ countFail cfg delivery c subs k = 0 := by
  intro subs
  induction subs with
  | nil => intro k _; exact ⟨rfl, rfl⟩
  | cons s rest ih =>
    intro k hall
    have hs := hall s (List.mem_cons_self s rest) k
    obtain ⟨h1, h2⟩ := ih (k + 1) (fun x hx j => hall x (List.mem_cons_of_mem s hx) j)
    simp [countOk, countFail, hs, h1, h2, Nat.add_comm]

theorem logsFor_length (cfg : EmailConfig) (delivery : Nat → DeliveryOutcome)
    (c : Campaign) : ∀ (subs : List Subscriber) (k : Nat),
    (logsFor cfg delivery c subs k).length = subs.length := by
  intro subs
  induction subs with
  | nil => intro k; rfl
  | cons s rest ih => intro k; simp [logsFor, ih (k + 1)]

theorem mkLog_status (cfg : EmailConfig) (delivery : Nat → DeliveryOutcome)
    (c : Campaign) (k : Nat) (s : Subscriber) :
    (mkLog cfg delivery c k s).status
      = (if attemptOk cfg delivery c k s then "sent" else "failed") := by
  unfold mkLog attemptOk
  cases hcc : create_email_message cfg s c with
  | error m => simp [Except.isOk, Except.toBool]
  | ok msg =>
    cases hd : delivery k with
    | failure m => simp [Except.isOk, Except.toBool, DeliveryOutcome.isSuccess]
    | success mid code => simp [Except.isOk, Except.toBool, DeliveryOutcome.isSuccess]

theorem logsFor_countP_sent (cfg : EmailConfig) (delivery : Nat → DeliveryOutcome)
    (c : Campaign) : ∀ (subs : List Subscriber) (k : Nat),
    (logsFor cfg delivery c subs k).countP (fun l => l.status == "sent")
      = countOk cfg delivery c subs k := by
  intro subs
  induction subs with
  | nil => intro k; rfl
  | cons s rest ih =>
    intro k
    simp only [logsFor, countOk, List.countP_cons, ih (k + 1), mkLog_status]
    cases h : attemptOk cfg delivery c k s <;> simp [Nat.add_comm]

theorem logsFor_countP_failed (cfg : EmailConfig) (delivery : Nat → DeliveryOutcome)
    (c : Campaign) : ∀ (subs : List Subscriber) (k : Nat),
    (logsFor cfg delivery c subs k).countP (fun l => l.status == "failed")
      = countFail cfg delivery c subs k := by
  intro subs
  induction subs with
  | nil => intro k; rfl
  | cons s rest ih =>
    intro k
    simp only [logsFor, countFail, List.countP_cons, ih (k + 1), mkLog_status]
    cases h : attemptOk cfg delivery c k s <;> simp [Nat.add_comm]

theorem composeErrMsg_ne_empty (e inner : String) :
    ("Template rendering failed for " ++ e ++ ": " ++ inner) ≠ ("") := by
  intro h
  have hl := congrArg String.length h
  simp only [String.length_append] at hl
  have h30 : ("Template rendering failed for ").length = 30 := rfl
  have h2 : (": ").length = 2 := rfl
  have h0 : ("").length = 0 := rfl
  rw [h30, h2, h0] at hl
  omega

theorem logsFor_mem (cfg : EmailConfig) (delivery : Nat → DeliveryOutcome) (c : Campaign)
    (herr : ∀ j m, delivery j = DeliveryOutcome.failure m → m ≠ "") :
    ∀ (subs : List Subscriber) (k : Nat), ∀ l ∈ logsFor cfg delivery c subs k,
    l.campaign_id = c.id
      ∧ (l.status = "failed" → ∃ m, l.error_message = some m ∧ m ≠ "") := by
  intro subs
  induction subs with
  | nil => intro k l hl; exact absurd hl (by simp [logsFor])
  | cons s rest ih =>
    intro k l hl
    rw [logsFor, List.mem_cons] at hl
    cases hl with
    | inr h => exact ih (k + 1) l h
    | inl h =>
      subst h
      unfold mkLog
      cases hcc : create_email_message cfg s c with
      | error m =>
        refine ⟨rfl, fun _ => ⟨m, rfl, ?_⟩⟩
        unfold create_email_message at hcc
        dsimp only at hcc
        cases hh : render_template c.template_html (buildContext cfg s c) with
        | error m2 =>
          rw [hh] at hcc
          simp only [Except.error.injEq] at hcc
          subst hcc
          exact composeErrMsg_ne_empty s.email m2
        | ok html =>
          rw [hh] at hcc
          by_cases ht : pyTruthy c.template_text
          · simp only [ht, if_true] at hcc
            cases hht : render_template (c.template_text.getD ("")) (buildContext cfg s c) with
            | error m2 =>
              rw [hht] at hcc
              simp only [Except.error.injEq] at hcc
              subst hcc
              exact composeErrMsg_ne_empty s.email m2
            | ok txt =>
              rw [hht] at hcc
              simp at hcc
          · simp only [ht, if_false] at hcc
            simp at hcc
      | ok msg =>
        cases hd : delivery k with
        | failure m => exact ⟨rfl, fun _ => ⟨m, rfl, herr k m hd⟩⟩
        | success mid code =>
          refine ⟨rfl, fun hfs => ?_⟩
          simp at hfs

/-- A concrete configuration used to instantiate theorems. -/
def cfgEx : EmailConfig :=
  { from_email := "f@x.com", from_name := "F", unsubscribe_url := "http://u",
    batch_size := 1 }

/-- A concrete active subscriber used to instantiate theorems. -/
def subEx : Subscriber :=
  { id := some 1, email := "a@x.com", name := some ("A"), custom_message := none,
    is_active := true, unsubscribe_token := "t1" }

/-- A concrete draft campaign with the counter values a freshly created
campaign carries (the column defaults of src/models.py). -/
def campEx : Campaign :=
  { id := 1, name := "C", subject := "S", template_html := "Hi",
    template_text := none, status := "draft", total_recipients := 0,
    emails_sent := 0, emails_failed := 0 }

/-- A delivery client that accepts every message. -/
def delEx : Nat → DeliveryOutcome :=
  fun _ => DeliveryOutcome.success (some ("m1")) 202

/-- C1: on a campaign in draft or scheduled with its counters at their
creation value of zero (the only state in which any caller of the engine
reaches a sendable campaign), with N active subscribers, a failure-free
store and no compose or delivery failures, send returns a result reporting
sent = N and failed = 0, and the campaign ends, committed, with
emails_sent = N, emails_failed = 0, total_recipients = N and status
completed. -/
theorem C1_all_success (cfg : EmailConfig) (delivery : Nat → DeliveryOutcome)
    (c : Campaign) (allSubs : List Subscriber)
    (hb : cfg.batch_size ≠ 0)
    (hst : c.status = "draft" ∨ c.status = "scheduled")
    (hs0 : c.emails_sent = 0) (hf0 : c.emails_failed = 0)
    (hcomp : ∀ s ∈ activeSubscribers allSubs, (create_email_message cfg s c).isOk = true)
    (hdel : ∀ j, (delivery j).isSuccess = true) :
    ∃ st, send_campaign_model cfg noFail delivery (some c) allSubs false =
        (Except.ok { success := true, sent := (activeSubscribers allSubs).length,
                     failed := 0, total := (activeSubscribers allSubs).length }, some st)
      ∧ st.campaign.emails_sent = (activeSubscribers allSubs).length
      ∧ st.campaign.emails_failed = 0
      ∧ st.campaign.total_recipients = (activeSubscribers allSubs).length
      ∧ st.campaign.status = "completed"
      ∧ st.committed = st.campaign := by
  have hall : ∀ s ∈ activeSubscribers allSubs, ∀ j, attemptOk cfg delivery c j s = true := by
    intro s hs j
    simp [attemptOk, hcomp s hs, hdel j]
  obtain ⟨hok, hfail⟩ := countOk_all cfg delivery c (activeSubscribers allSubs) 0 hall
  rw [send_campaign_noFail_eq cfg delivery c allSubs false hb hst]
  rw [usedSubscribers_false, hok, hfail]
  refine ⟨_, rfl, ?_, ?_, ?_, ?_, rfl⟩
  · simp [hs0]
  · simp [hf0]
  · rfl
  · rfl

/-- C1 witness: one active subscriber, a parseable template, an accepting
delivery client. -/
theorem C1_all_success_witness :
    ∃ st, send_campaign_model cfgEx noFail delEx (some campEx) [subEx] false =
        (Except.ok { success := true, sent := (activeSubscribers [subEx]).length,
                     failed := 0, total := (activeSubscribers [subEx]).length }, some st)
      ∧ st.campaign.emails_sent = (activeSubscribers [subEx]).length
      ∧ st.campaign.emails_failed = 0
      ∧ st.campaign.total_recipients = (activeSubscribers [subEx]).length
      ∧ st.campaign.status = "completed"
      ∧ st.committed = st.campaign :=
  C1_all_success cfgEx delEx campEx [subEx] (by decide) (Or.inl rfl) rfl rfl
    (by decide) (fun j => rfl)

/-- C2: on a campaign in draft or scheduled with its counters at their
creation value of zero and no pre-existing log rows (the state of any
reachable sendable campaign), N active subscribers, a failure-free store,
and exactly K of the N per-recipient attempts failing in compose or in
delivery (every delivery failure carrying a non-empty reason), send
completes without raising: the result reports sent = N - K and failed = K,
the campaign ends committed with emails_sent = N - K, emails_failed = K and,
when K is at least one, status completed_with_errors; exactly N EmailLog
rows exist for the campaign, N - K with status sent and K with status
failed, each failed row carrying a non-empty error message. -/
theorem C2_partial_failure (cfg : EmailConfig) (delivery : Nat → DeliveryOutcome)
    (c : Campaign) (allSubs : List Subscriber)
    (hb : cfg.batch_size ≠ 0)
    (hst : c.status = "draft" ∨ c.status = "scheduled")
    (hs0 : c.emails_sent = 0) (hf0 : c.emails_failed = 0)
    (herr : ∀ j m, delivery j = DeliveryOutcome.failure m → m ≠ "") :
    ∃ st, send_campaign_model cfg noFail delivery (some c) allSubs false =
        (Except.ok
          { success := true,
            sent := (activeSubscribers allSubs).length
              - countFail cfg delivery c (activeSubscribers allSubs) 0,
            failed := countFail cfg delivery c (activeSubscribers allSubs) 0,
            total := (activeSubscribers allSubs).length }, some st)
      ∧ st.campaign.emails_sent = (activeSubscribers allSubs).length
          - countFail cfg delivery c (activeSubscribers allSubs) 0
      ∧ st.campaign.emails_failed = countFail cfg delivery c (activeSubscribers allSubs) 0
      ∧ (1 ≤ countFail cfg delivery c (activeSubscribers allSubs) 0 →
          st.campaign.status = "completed_with_errors")
      ∧ st.committed = st.campaign
      ∧ st.committedLogs.length = (activeSubscribers allSubs).length
      ∧ st.pendingLogs = []
      ∧ st.committedLogs.countP (fun l => l.status == "sent")
          = (activeSubscribers allSubs).length
            - countFail cfg delivery c (activeSubscribers allSubs) 0
      ∧ st.committedLogs.countP (fun l => l.status == "failed")
          = countFail cfg delivery c (activeSubscribers allSubs) 0
      ∧ (∀ l ∈ st.committedLogs, l.campaign_id = c.id
          ∧ (l.status = "failed" → ∃ m, l.error_message = some m ∧ m ≠ "")) := by
  have hsum := countOk_add_countFail cfg delivery c (activeSubscribers allSubs) 0
  have hok : countOk cfg delivery c (activeSubscribers allSubs) 0
      = (activeSubscribers allSubs).length
        - countFail cfg delivery c (activeSubscribers allSubs) 0 := by omega
  rw [send_campaign_noFail_eq cfg delivery c allSubs false hb hst]
  rw [usedSubscribers_false, hok]
  refine ⟨_, rfl, ?_, ?_, ?_, rfl, ?_, rfl, ?_, ?_, ?_⟩
  · simp [hs0]
  · simp [hf0]
  · intro hK
    have : ¬ countFail cfg delivery c (activeSubscribers allSubs) 0 = 0 := by omega
    simp [this]
  · exact logsFor_length cfg delivery c (activeSubscribers allSubs) 0
  · rw [logsFor_countP_sent, hok]
  · rw [logsFor_countP_failed]
  · exact logsFor_mem cfg delivery c herr (activeSubscribers allSubs) 0

/-- A delivery client that rejects every message with a fixed reason. -/
def delRejEx : Nat → DeliveryOutcome :=
  fun _ => DeliveryOutcome.failure ("mailbox unavailable")

/-- C2 witness: one active subscriber whose delivery attempt is rejected
with a non-empty reason, so K = 1 of N = 1. -/
theorem C2_partial_failure_witness :
    ∃ st, send_campaign_model cfgEx noFail delRejEx (some campEx) [subEx] false =
        (Except.ok
          { success := true,
            sent := (activeSubscribers [subEx]).length
              - countFail cfgEx delRejEx campEx (activeSubscribers [subEx]) 0,
            failed := countFail cfgEx delRejEx campEx (activeSubscribers [subEx]) 0,
            total := (activeSubscribers [subEx]).length }, some st)
      ∧ st.campaign.emails_sent = (activeSubscribers [subEx]).length
          - countFail cfgEx delRejEx campEx (activeSubscribers [subEx]) 0
      ∧ st.campaign.emails_failed = countFail cfgEx delRejEx campEx (activeSubscribers [subEx]) 0
      ∧ (1 ≤ countFail cfgEx delRejEx campEx (activeSubscribers [subEx]) 0 →
          st.campaign.status = "completed_with_errors")
      ∧ st.committed = st.campaign
      ∧ st.committedLogs.length = (activeSubscribers [subEx]).length
      ∧ st.pendingLogs = []
      ∧ st.committedLogs.countP (fun l => l.status == "sent")
          = (activeSubscribers [subEx]).length
            - countFail cfgEx delRejEx campEx (activeSubscribers [subEx]) 0
      ∧ st.committedLogs.countP (fun l => l.status == "failed")
          = countFail cfgEx delRejEx campEx (activeSubscribers [subEx]) 0
      ∧ (∀ l ∈ st.committedLogs, l.campaign_id = campEx.id
          ∧ (l.status = "failed" → ∃ m, l.error_message = some m ∧ m ≠ "")) :=
  C2_partial_failure cfgEx delRejEx campEx [subEx] (by decide) (Or.inl rfl) rfl rfl
    (fun j m h => by
      simp only [delRejEx, DeliveryOutcome.failure.injEq] at h
      subst h
      decide)

/-- C3 counterexample: a draft campaign with one active subscriber, sent
with test mode on against an accepting delivery client and failure-free
store. The claim says test mode never mutates campaign counters or status;
the run ends with status completed, emails_sent = 1 and
total_recipients = 1, all committed, while the campaign started as draft
with both at 0. -/
theorem C3_testmode_counterexample :
    campEx.status = "draft" ∧ campEx.emails_sent = 0 ∧ campEx.total_recipients = 0
      ∧ ((send_campaign_model cfgEx noFail delEx (some campEx) [subEx] true).2.map
          (fun st => (st.campaign.status, st.campaign.emails_sent,
            st.campaign.total_recipients, st.committed.status))
        = some ("completed", 1, 1, "completed")) :=
  ⟨rfl, rfl, rfl, rfl⟩

/-- C3 amended: with testMode = true the engine attempts exactly the first
min(3, N) active subscribers in store order, but it does not bypass the
campaign mutations: the campaign still transitions through sending to
completed or completed_with_errors, total_recipients is set to the full
active count N, the counters are incremented by the min(3, N) attempt
outcomes, and min(3, N) log rows are committed (stated for a campaign whose
counters start at zero, as at creation). -/
theorem C3_testmode_amended (cfg : EmailConfig) (delivery : Nat → DeliveryOutcome)
    (c : Campaign) (allSubs : List Subscriber)
    (hb : cfg.batch_size ≠ 0)
    (hst : c.status = "draft" ∨ c.status = "scheduled")
    (hs0 : c.emails_sent = 0) (hf0 : c.emails_failed = 0) :
    ∃ st, send_campaign_model cfg noFail delivery (some c) allSubs true =
        (Except.ok
          { success := true,
            sent := countOk cfg delivery c ((activeSubscribers allSubs).take 3) 0,
            failed := countFail cfg delivery c ((activeSubscribers allSubs).take 3) 0,
            total := min 3 (activeSubscribers allSubs).length }, some st)
      ∧ st.campaign.total_recipients = (activeSubscribers allSubs).length
      ∧ st.campaign.emails_sent + st.campaign.emails_failed
          = min 3 (activeSubscribers allSubs).length
      ∧ (st.campaign.status = "completed"
          ∨ st.campaign.status = "completed_with_errors")
      ∧ st.committed = st.campaign
      ∧ st.committedLogs.length = min 3 (activeSubscribers allSubs).length := by
  have hsum := countOk_add_countFail cfg delivery c ((activeSubscribers allSubs).take 3) 0
  have hlen : ((activeSubscribers allSubs).take 3).length
      = min 3 (activeSubscribers allSubs).length := List.length_take 3 _
  rw [send_campaign_noFail_eq cfg delivery c allSubs true hb hst]
  rw [usedSubscribers_true, hlen]
  refine ⟨_, rfl, rfl, ?_, ?_, rfl, ?_⟩
  · simp only [hs0, hf0, Nat.zero_add]
    omega
  · by_cases hK : countFail cfg delivery c ((activeSubscribers allSubs).take 3) 0 = 0
    · left; simp [hK]
    · right; simp [hK]
  · rw [logsFor_length, hlen]

/-- C3 amended witness: the amended theorem at a concrete draft campaign
with one active subscriber. -/
theorem C3_testmode_amended_witness :
    ∃ st, send_campaign_model cfgEx noFail delEx (some campEx) [subEx] true =
        (Except.ok
          { success := true,
            sent := countOk cfgEx delEx campEx ((activeSubscribers [subEx]).take 3) 0,
            failed := countFail cfgEx delEx campEx ((activeSubscribers [subEx]).take 3) 0,
            total := min 3 (activeSubscribers [subEx]).length }, some st)
      ∧ st.campaign.total_recipients = (activeSubscribers [subEx]).length
      ∧ st.campaign.emails_sent + st.campaign.emails_failed
          = min 3 (activeSubscribers [subEx]).length
      ∧ (st.campaign.status = "completed"
          ∨ st.campaign.status = "completed_with_errors")
      ∧ st.committed = st.campaign
      ∧ st.committedLogs.length = min 3 (activeSubscribers [subEx]).length :=
  C3_testmode_amended cfgEx delEx campEx [subEx] (by decide) (Or.inl rfl) rfl rfl

/-- C6: sending a missing campaign fails with the not-found error and no
session exists; sending a campaign whose status is neither draft nor
scheduled fails with the invalid-state error carrying that status, and the
session is exactly the freshly loaded one: every field of the campaign, in
memory and committed, is unchanged and no log rows exist. -/
theorem C6_precondition_errors (cfg : EmailConfig) (o : StoreOracle)
    (delivery : Nat → DeliveryOutcome) (allSubs : List Subscriber) (tm : Bool)
    (c : Campaign) (h1 : c.status ≠ "draft") (h2 : c.status ≠ "scheduled") :
    send_campaign_model cfg o delivery none allSubs tm
        = (Except.error SendErr.notFound, none)
      ∧ send_campaign_model cfg o delivery (some c) allSubs tm
        = (Except.error (SendErr.invalidState c.status), some (initState c))
      ∧ (initState c).campaign = c ∧ (initState c).committed = c
      ∧ (initState c).committedLogs = [] ∧ (initState c).pendingLogs = [] := by
  refine ⟨rfl, ?_, rfl, rfl, rfl, rfl⟩
  unfold send_campaign_model
  dsimp only
  rw [if_neg (by simp [h1, h2])]

/-- C6 witness: a concrete completed campaign. -/
theorem C6_precondition_errors_witness :
    send_campaign_model cfgEx noFail delEx none [subEx] false
        = (Except.error SendErr.notFound, none)
      ∧ send_campaign_model cfgEx noFail delEx
          (some { campEx with status := "completed" }) [subEx] false
        = (Except.error (SendErr.invalidState ({ campEx with status := "completed" }).status),
           some (initState { campEx with status := "completed" }))
      ∧ (initState { campEx with status := "completed" }).campaign
          = { campEx with status := "completed" }
      ∧ (initState { campEx with status := "completed" }).committed
          = { campEx with status := "completed" }
      ∧ (initState { campEx with status := "completed" }).committedLogs = []
      ∧ (initState { campEx with status := "completed" }).pendingLogs = [] :=
  C6_precondition_errors cfgEx noFail delEx [subEx] false
    { campEx with status := "completed" } (by decide) (by decide)

/-- C4 counterexample: sendTest on a concrete draft campaign with a
successful delivery. The claim says sendTest bypasses the campaign counters
entirely and leaves emails_sent unchanged; the run leaves the in-memory
campaign object with emails_sent = 1 while it started at 0, because
send_test_email reuses send_single_email, which increments the counter. -/
theorem C4_sendtest_counterexample :
    campEx.emails_sent = 0
      ∧ ((send_test_email_model cfgEx (DeliveryOutcome.success (some ("m1")) 202)
            (some campEx) ("e@x.com") ("tok")).2.map
          (fun st => st.campaign.emails_sent) = some 1) :=
  ⟨rfl, rfl⟩

/-- Helper: full characterisation of one sendTest run on a found campaign:
exactly one attempt, nothing committed, status and total_recipients
untouched, one counter incremented, one pending log row with no subscriber
id; a missing campaign yields the not-found error. -/
theorem send_test_email_spec (cfg : EmailConfig) (dout : DeliveryOutcome)
    (c : Campaign) (email token : String) :
    ∃ r st, send_test_email_model cfg dout (some c) email token
        = (Except.ok r, some st)
      ∧ st.committed = c
      ∧ st.committedLogs = []
      ∧ st.campaign.status = c.status
      ∧ st.campaign.total_recipients = c.total_recipients
      ∧ st.campaign.emails_sent + st.campaign.emails_failed
          = c.emails_sent + c.emails_failed + 1
      ∧ st.pendingLogs.length = 1
      ∧ (∀ l ∈ st.pendingLogs, l.subscriber_id = none ∧ l.campaign_id = c.id)
      ∧ send_test_email_model cfg dout none email token
          = (Except.error SendErr.notFound, none) := by
  unfold send_test_email_model
  dsimp only
  cases hcc : create_email_message cfg
      { id := none, email := email.toLower, name := some ("Test User"),
        custom_message := some ("This is a test message."), is_active := true,
        unsubscribe_token := token } (initState c).campaign with
  | error m =>
    rw [send_single_email_compose_error cfg dout _ (initState c) m hcc]
    exact ⟨_, _, rfl, rfl, rfl, rfl, rfl, by simp [initState]; omega, rfl,
      by simp [initState], rfl⟩
  | ok msg =>
    cases dout with
    | failure m =>
      rw [send_single_email_delivery_error cfg _ (initState c) msg m hcc]
      exact ⟨_, _, rfl, rfl, rfl, rfl, rfl, by simp [initState]; omega, rfl,
        by simp [initState], rfl⟩
    | success mid code =>
      rw [send_single_email_success cfg _ (initState c) msg mid code hcc]
      exact ⟨_, _, rfl, rfl, rfl, rfl, rfl, by simp [initState]; omega, rfl,
        by simp [initState], rfl⟩

/-- C4 amended: sendTest composes and sends exactly one message to an
ephemeral subscriber built from the address (lower-cased email, no primary
key, never added to the session), bypasses the state machine (status and
total_recipients are untouched) and returns a success or failure result; and
because nothing is committed, the persisted campaign and log table are
unchanged. However it does not bypass the counters: the in-memory campaign
object has emails_sent (on success) or emails_failed (on failure)
incremented by one, and one EmailLog row for the campaign, with no
subscriber id, is left pending in the session. A missing campaign fails
with the not-found error. -/
theorem C4_sendtest_amended (cfg : EmailConfig) (dout : DeliveryOutcome)
    (c : Campaign) (email token : String) :
    ∃ r st, send_test_email_model cfg dout (some c) email token
        = (Except.ok r, some st)
      ∧ st.committed = c
      ∧ st.committedLogs = []
      ∧ st.campaign.status = c.status
      ∧ st.campaign.total_recipients = c.total_recipients
      ∧ st.campaign.emails_sent + st.campaign.emails_failed
          = c.emails_sent + c.emails_failed + 1
      ∧ st.pendingLogs.length = 1
      ∧ (∀ l ∈ st.pendingLogs, l.subscriber_id = none ∧ l.campaign_id = c.id)
      ∧ send_test_email_model cfg dout none email token
          = (Except.error SendErr.notFound, none) :=
  send_test_email_spec cfg dout c email token

/-- A completed campaign that has exhausted its recipient budget: counters
exactly at total_recipients, as left by a fully successful send of one
recipient. -/
def campDoneEx : Campaign :=
  { id := 1, name := "C", subject := "S", template_html := "Hi",
    template_text := none, status := "completed", total_recipients := 1,
    emails_sent := 1, emails_failed := 0 }

/-- C5 counterexample: the invariant emails_sent + emails_failed less than
or equal to total_recipients holds on the concrete completed campaign, and
one sendTest call (an operation of the engine, explicitly included in the
claim) drives the in-memory campaign to emails_sent + emails_failed = 2
while total_recipients stays 1, violating the claimed invariant. -/
theorem C5_invariant_counterexample :
    campDoneEx.emails_sent + campDoneEx.emails_failed ≤ campDoneEx.total_recipients
      ∧ ((send_test_email_model cfgEx (DeliveryOutcome.success (some ("m1")) 202)
            (some campDoneEx) ("e@x.com") ("tok")).2.map
          (fun st => (st.campaign.emails_sent + st.campaign.emails_failed,
            st.campaign.total_recipients)) = some (2, 1))
      ∧ ¬ (2 ≤ 1) :=
  ⟨by decide, rfl, by decide⟩

/-- The session state entering the batch loop of send_campaign on campaign
c under a failure-free store: status sending and total_recipients set to the
active count, both committed, no log rows yet, two commits made. -/
def loopStartState (c : Campaign) (allSubs : List Subscriber) : EngineState :=
  { campaign := { c with
      status := "sending",
      total_recipients := (activeSubscribers allSubs).length },
    committed := { c with
      status := "sending",
      total_recipients := (activeSubscribers allSubs).length },
    committedLogs := [], pendingLogs := [], commitCount := 2 }

/-- C5 amended: within send_campaign the invariant holds: starting from a
campaign whose counters are zero (as at creation), after any number m of
per-recipient attempts the in-memory campaign satisfies
emails_sent + emails_failed at most total_recipients, in test mode and in
full mode. sendTest, by contrast, increments a counter without touching
total_recipients, so after sendTest the invariant holds only when
emails_sent + emails_failed was strictly below total_recipients
beforehand. -/
theorem C5_invariant_amended (cfg : EmailConfig) (delivery : Nat → DeliveryOutcome)
    (c : Campaign) (allSubs : List Subscriber) (tm : Bool) (m : Nat)
    (dout : DeliveryOutcome) (c2 : Campaign) (email token : String)
    (hs0 : c.emails_sent = 0) (hf0 : c.emails_failed = 0)
    (hlt : c2.emails_sent + c2.emails_failed < c2.total_recipients) :
    ((processList cfg delivery ((usedSubscribers allSubs tm).take m) 0 0 0
        (loopStartState c allSubs)).2.2.2.campaign.emails_sent
      + (processList cfg delivery ((usedSubscribers allSubs tm).take m) 0 0 0
        (loopStartState c allSubs)).2.2.2.campaign.emails_failed
      ≤ (processList cfg delivery ((usedSubscribers allSubs tm).take m) 0 0 0
        (loopStartState c allSubs)).2.2.2.campaign.total_recipients)
    ∧ ∀ r st, send_test_email_model cfg dout (some c2) email token
        = (Except.ok r, some st) →
      st.campaign.emails_sent + st.campaign.emails_failed
        ≤ st.campaign.total_recipients := by
  constructor
  · have hcg : sameCompose (loopStartState c allSubs).campaign c :=
      ⟨rfl, rfl, rfl, rfl, rfl⟩
    rw [processList_eq cfg delivery (loopStartState c allSubs).campaign
      ((usedSubscribers allSubs tm).take m) 0 0 0 (loopStartState c allSubs)
      (sameCompose_refl _)]
    rw [countOk_congr cfg delivery hcg, countFail_congr cfg delivery hcg]
    have hsum := countOk_add_countFail cfg delivery c
      ((usedSubscribers allSubs tm).take m) 0
    have hlen : ((usedSubscribers allSubs tm).take m).length
        ≤ (activeSubscribers allSubs).length := by
      calc ((usedSubscribers allSubs tm).take m).length
          ≤ (usedSubscribers allSubs tm).length := by
            rw [List.length_take]; omega
        _ ≤ (activeSubscribers allSubs).length := by
            unfold usedSubscribers
            cases tm with
            | true => simp [List.length_take]
            | false => simp
    simp only [loopStartState, hs0, hf0]
    omega
  · intro r st hrun
    obtain ⟨r2, st2, heq, _, _, _, htot, hsum, _⟩ :=
      send_test_email_spec cfg dout c2 email token
    rw [heq] at hrun
    simp only [Prod.mk.injEq, Except.ok.injEq, Option.some.injEq] at hrun
    obtain ⟨hr, hst⟩ := hrun
    subst hst
    omega

/-- A campaign with room left in its recipient budget. -/
def campRoomEx : Campaign :=
  { id := 1, name := "C", subject := "S", template_html := "Hi",
    template_text := none, status := "completed", total_recipients := 2,
    emails_sent := 1, emails_failed := 0 }

/-- C5 amended witness: the amended theorem at a concrete campaign, prefix
length one, and a sendTest on a campaign with room left. -/
theorem C5_invariant_amended_witness :
    ((processList cfgEx delEx ((usedSubscribers [subEx] false).take 1) 0 0 0
        (loopStartState campEx [subEx])).2.2.2.campaign.emails_sent
      + (processList cfgEx delEx ((usedSubscribers [subEx] false).take 1) 0 0 0
        (loopStartState campEx [subEx])).2.2.2.campaign.emails_failed
      ≤ (processList cfgEx delEx ((usedSubscribers [subEx] false).take 1) 0 0 0
        (loopStartState campEx [subEx])).2.2.2.campaign.total_recipients)
    ∧ ∀ r st, send_test_email_model cfgEx (DeliveryOutcome.success (some ("m1")) 202)
        (some campRoomEx) ("e@x.com") ("tok") = (Except.ok r, some st) →
      st.campaign.emails_sent + st.campaign.emails_failed
        ≤ st.campaign.total_recipients :=
  C5_invariant_amended cfgEx delEx campEx [subEx] false 1
    (DeliveryOutcome.success (some ("m1")) 202) campRoomEx ("e@x.com") ("tok")
    rfl rfl (by decide)

/-- A store that accepts the first two commits of a call and then becomes
unavailable: every later commit raises. -/
def failingStore : StoreOracle :=
  { queryFail := none,
    commitFail := fun n => if n ≥ 2 then some ("db gone") else none }

/-- C7 counterexample: one active subscriber, batch size one, delivery
succeeding, against a store that fails every commit from the third onward.
The batch commit raises inside the try block, the recovery commit in the
except branch raises too, so send re-raises the raw store error with the
in-memory campaign marked failed but the persisted campaign still in status
sending: the claim that send never returns or raises while leaving the
campaign in sending, and that the failed status is persisted, fails on this
input. -/
theorem C7_failed_persist_counterexample :
    (send_campaign_model cfgEx failingStore delEx (some campEx) [subEx] false).1
        = Except.error (SendErr.storeError ("db gone"))
      ∧ ((send_campaign_model cfgEx failingStore delEx (some campEx) [subEx] false).2.map
          (fun st => (st.campaign.status, st.committed.status))
        = some ("failed", "sending")) :=
  ⟨rfl, rfl⟩

theorem tryCommit_cases (o : StoreOracle) (st : EngineState) :
    (∀ st2, tryCommit o st = Except.ok st2 →
      st2.campaign = st.campaign ∧ st2.committed = st.campaign)
    ∧ (∀ m st2, tryCommit o st = Except.error (m, st2) →
      st2.campaign = st.campaign ∧ st2.committed = st.committed) := by
  unfold tryCommit
  cases h : o.commitFail st.commitCount with
  | some m =>
    constructor
    · intro st2 h2
      cases h2
    · intro m2 st2 h2
      simp only [Except.error.injEq, Prod.mk.injEq] at h2
      obtain ⟨_, h3⟩ := h2
      subst h3
      exact ⟨rfl, rfl⟩
  | none =>
    constructor
    · intro st2 h2
      simp only [Except.ok.injEq] at h2
      subst h2
      exact ⟨rfl, rfl⟩
    · intro m2 st2 h2
      cases h2

theorem processList_state (cfg : EmailConfig) (delivery : Nat → DeliveryOutcome)
    (subs : List Subscriber) (k sent failed : Nat) (st : EngineState) :
    ((processList cfg delivery subs k sent failed st).2.2.2).campaign.status
        = st.campaign.status
      ∧ ((processList cfg delivery subs k sent failed st).2.2.2).committed
        = st.committed := by
  rw [processList_eq cfg delivery st.campaign subs k sent failed st (sameCompose_refl _)]
  exact ⟨rfl, rfl⟩

/-- Through the batch loop under any store, the in-memory campaign status is
untouched, and the committed status either stays what it was or becomes a
copy of the (unchanged) in-memory status, whether the loop returns or
raises. -/
theorem runBatches_status (cfg : EmailConfig) (delivery : Nat → DeliveryOutcome)
    (o : StoreOracle) : ∀ (batches : List (List Subscriber)) (k sent failed : Nat)
    (st : EngineState),
    (∀ a b res, runBatches cfg delivery o batches k sent failed st
        = Except.ok (a, b, res) →
      res.campaign.status = st.campaign.status
      ∧ (res.committed.status = st.committed.status
         ∨ res.committed.status = st.campaign.status))
    ∧ (∀ m st2, runBatches cfg delivery o batches k sent failed st
        = Except.error (m, st2) →
      st2.campaign.status = st.campaign.status
      ∧ (st2.committed.status = st.committed.status
         ∨ st2.committed.status = st.campaign.status)) := by
  intro batches
  induction batches with
  | nil =>
    intro k sent failed st
    constructor
    · intro a b res h
      rw [runBatches] at h
      simp only [Except.ok.injEq, Prod.mk.injEq] at h
      obtain ⟨_, _, h3⟩ := h
      subst h3
      exact ⟨rfl, Or.inl rfl⟩
    · intro m st2 h
      rw [runBatches] at h
      cases h
  | cons b rest ih =>
    intro k sent failed st
    have hpl := processList_state cfg delivery b k sent failed st
    have htc := tryCommit_cases o ((processList cfg delivery b k sent failed st).2.2.2)
    constructor
    · intro a b2 res h
      rw [runBatches] at h
      cases htcc : tryCommit o ((processList cfg delivery b k sent failed st).2.2.2) with
      | error e =>
        rw [htcc] at h
        cases h
      | ok st2 =>
        rw [htcc] at h
        obtain ⟨hc2, hm2⟩ := htc.1 st2 htcc
        obtain ⟨hral, _⟩ := ih ((processList cfg delivery b k sent failed st).1)
          ((processList cfg delivery b k sent failed st).2.1)
          ((processList cfg delivery b k sent failed st).2.2.1) st2
        obtain ⟨h1, h2⟩ := hral a b2 res h
        refine ⟨by rw [h1, hc2, hpl.1], ?_⟩
        cases h2 with
        | inl hh => exact Or.inr (by rw [hh, hm2, hpl.1])
        | inr hh => exact Or.inr (by rw [hh, hc2, hpl.1])
    · intro m st3 h
      rw [runBatches] at h
      cases htcc : tryCommit o ((processList cfg delivery b k sent failed st).2.2.2) with
      | error e =>
        rw [htcc] at h
        simp only [Except.error.injEq] at h
        obtain ⟨he1, he2⟩ : e.1 = m ∧ e.2 = st3 := by
          cases e
          simp only [Prod.mk.injEq] at h
          exact h
        obtain ⟨hc2, hm2⟩ := htc.2 e.1 e.2 (by rw [htcc])
        rw [← he2]
        refine ⟨by rw [hc2, hpl.1], Or.inl (by rw [hm2, hpl.2])⟩
      | ok st2 =>
        rw [htcc] at h
        obtain ⟨hc2, hm2⟩ := htc.1 st2 htcc
        obtain ⟨_, hrer⟩ := ih ((processList cfg delivery b k sent failed st).1)
          ((processList cfg delivery b k sent failed st).2.1)
          ((processList cfg delivery b k sent failed st).2.2.1) st2
        obtain ⟨h1, h2⟩ := hrer m st3 h
        refine ⟨by rw [h1, hc2, hpl.1], ?_⟩
        cases h2 with
        | inl hh => exact Or.inr (by rw [hh, hm2, hpl.1])
        | inr hh => exact Or.inr (by rw [hh, hc2, hpl.1])

/-- When the try-block body returns normally, the result dict reports
success, the in-memory campaign status is completed when the reported
failure count is zero and completed_with_errors otherwise, and the final
commit has made the committed campaign a copy of the in-memory one. -/
theorem sendCampaignBody_ok (cfg : EmailConfig) (o : StoreOracle)
    (delivery : Nat → DeliveryOutcome) (allSubs : List Subscriber) (tm : Bool)
    (st0 : EngineState) : ∀ r st,
    sendCampaignBody cfg o delivery allSubs tm st0 = Except.ok (r, st) →
    r.success = true
      ∧ st.campaign.status = (if r.failed = 0 then "completed" else "completed_with_errors")
      ∧ st.committed = st.campaign := by
  intro r st h
  unfold sendCampaignBody at h
  split at h
  · cases h
  · split at h <;>
      (split at h
       · dsimp only at h
         split at h
         · cases h
         · cases h
       · dsimp only at h
         split at h
         · cases h
         · rename_i st2 htc2
           split at h
           · cases h
           · rename_i sent failed st3 hrb
             split at h
             · cases h
             · rename_i st5 htc5
               simp only [Except.ok.injEq, Prod.mk.injEq] at h
               obtain ⟨hr, hst⟩ := h
               subst hst
               subst hr
               obtain ⟨hc5, hm5⟩ := (tryCommit_cases o _).1 st5 htc5
               exact ⟨rfl, by rw [hc5], by rw [hm5, hc5]⟩)

/-- When the try-block body raises, the committed campaign status at the
raise is either still what it was when the body started, or a copy of the
in-memory status at body start (which send_campaign has set to sending). -/
theorem sendCampaignBody_err (cfg : EmailConfig) (o : StoreOracle)
    (delivery : Nat → DeliveryOutcome) (allSubs : List Subscriber) (tm : Bool)
    (st0 : EngineState) : ∀ m st,
    sendCampaignBody cfg o delivery allSubs tm st0 = Except.error (m, st) →
    st.committed.status = st0.committed.status
      ∨ st.committed.status = st0.campaign.status := by
  intro m st h
  unfold sendCampaignBody at h
  split at h
  · simp only [Except.error.injEq, Prod.mk.injEq] at h
    obtain ⟨_, hst⟩ := h
    subst hst
    exact Or.inl rfl
  · split at h <;>
      (split at h
       · dsimp only at h
         split at h
         · rename_i e htcE
           obtain ⟨em, est⟩ := e
           simp only [Except.error.injEq, Prod.mk.injEq] at h
           obtain ⟨_, hst⟩ := h
           subst hst
           obtain ⟨_, hm2⟩ := (tryCommit_cases o _).2 em est htcE
           rw [hm2]
           exact Or.inl rfl
         · rename_i st2 htc2
           simp only [Except.error.injEq, Prod.mk.injEq] at h
           obtain ⟨_, hst⟩ := h
           subst hst
           obtain ⟨_, hm2⟩ := (tryCommit_cases o _).1 st2 htc2
           rw [hm2]
           exact Or.inr rfl
       · dsimp only at h
         split at h
         · rename_i e htcE
           obtain ⟨em, est⟩ := e
           simp only [Except.error.injEq, Prod.mk.injEq] at h
           obtain ⟨_, hst⟩ := h
           subst hst
           obtain ⟨_, hm2⟩ := (tryCommit_cases o _).2 em est htcE
           rw [hm2]
           exact Or.inl rfl
         · rename_i st2 htc2
           obtain ⟨hc2, hm2⟩ := (tryCommit_cases o _).1 st2 htc2
           split at h
           · rename_i e2 hrbE
             obtain ⟨em2, est2⟩ := e2
             simp only [Except.error.injEq, Prod.mk.injEq] at h
             obtain ⟨_, hst⟩ := h
             subst hst
             obtain ⟨_, hcom⟩ := (runBatches_status cfg delivery o _ _ _ _ st2).2
               em2 est2 hrbE
             cases hcom with
             | inl hh => exact Or.inr (by rw [hh, hm2])
             | inr hh => exact Or.inr (by rw [hh, hc2])
           · rename_i sent failed st3 hrb
             split at h
             · rename_i e3 htcE3
               obtain ⟨em3, est3⟩ := e3
               simp only [Except.error.injEq, Prod.mk.injEq] at h
               obtain ⟨_, hst⟩ := h
               subst hst
               obtain ⟨_, hm4⟩ := (tryCommit_cases o _).2 em3 est3 htcE3
               obtain ⟨_, hcom⟩ := (runBatches_status cfg delivery o _ _ _ _ st2).1
                 sent failed st3 hrb
               rw [hm4]
               cases hcom with
               | inl hh => exact Or.inr (by rw [hh, hm2])
               | inr hh => exact Or.inr (by rw [hh, hc2])
             · cases h)

/-- C7 amended: on a sendable campaign whose transition commit to sending
succeeded, every run ends in exactly one of three ways: (a) the body
completed: send returns the result and the committed campaign carries the
final status completed or completed_with_errors; (b) an error escaped the
batch loop and the recovery commit succeeded: send re-raises the wrapped
error and the status failed is both in memory and persisted; (c) an error
escaped and the recovery commit itself failed: send re-raises the raw store
error, the in-memory status is failed, but the persisted status is still
sending. The claim that the failed status is always persisted, and that the
campaign is never left in sending, holds only in cases (a) and (b). -/
theorem C7_failure_recovery (cfg : EmailConfig) (o : StoreOracle)
    (delivery : Nat → DeliveryOutcome) (c : Campaign) (allSubs : List Subscriber)
    (tm : Bool)
    (hst : c.status = "draft" ∨ c.status = "scheduled")
    (hc0 : o.commitFail 0 = none) :
    ∃ st, (send_campaign_model cfg o delivery (some c) allSubs tm).2 = some st
      ∧ ((∃ r, (send_campaign_model cfg o delivery (some c) allSubs tm).1 = Except.ok r
            ∧ st.campaign.status
                = (if r.failed = 0 then "completed" else "completed_with_errors")
            ∧ st.committed = st.campaign)
        ∨ (∃ m, (send_campaign_model cfg o delivery (some c) allSubs tm).1
              = Except.error (SendErr.sendFailed m)
            ∧ st.campaign.status = "failed" ∧ st.committed.status = "failed")
        ∨ (∃ m, (send_campaign_model cfg o delivery (some c) allSubs tm).1
              = Except.error (SendErr.storeError m)
            ∧ st.campaign.status = "failed" ∧ st.committed.status = "sending")) := by
  unfold send_campaign_model
  dsimp only
  rw [if_pos hst]
  split
  · rename_i e htc0
    unfold tryCommit at htc0
    dsimp only [initState] at htc0
    rw [hc0] at htc0
    cases htc0
  · rename_i st1 htc1
    obtain ⟨hst1c, hst1m⟩ := (tryCommit_cases o _).1 st1 htc1
    cases hbody : sendCampaignBody cfg o delivery allSubs tm st1 with
    | ok p =>
      obtain ⟨r, stB⟩ := p
      dsimp only
      obtain ⟨hsucc, hstat, hcom⟩ := sendCampaignBody_ok cfg o delivery allSubs tm st1 r stB hbody
      exact ⟨stB, rfl, Or.inl ⟨r, rfl, hstat, hcom⟩⟩
    | error p =>
      obtain ⟨m, stE⟩ := p
      dsimp only
      have hEcom : stE.committed.status = "sending" := by
        cases sendCampaignBody_err cfg o delivery allSubs tm st1 m stE hbody with
        | inl hh => rw [hh, hst1m]
        | inr hh => rw [hh, hst1c]
      split
      · rename_i m2 st3 htcR
        obtain ⟨h3c, h3m⟩ := (tryCommit_cases o _).2 m2 st3 htcR
        refine ⟨st3, rfl, Or.inr (Or.inr ⟨m2, rfl, by rw [h3c], ?_⟩)⟩
        rw [h3m]
        exact hEcom
      · rename_i st3 htcR
        obtain ⟨h3c, h3m⟩ := (tryCommit_cases o _).1 st3 htcR
        exact ⟨st3, rfl, Or.inr (Or.inl
          ⟨"Campaign sending failed: " ++ m, rfl, by rw [h3c], by rw [h3m]⟩)⟩

/-- C7 amended witness: the trichotomy evaluated on a concrete run (which
lands in the completed case). -/
theorem C7_failure_recovery_witness :
    ∃ st, (send_campaign_model cfgEx noFail delEx (some campEx) [subEx] false).2 = some st
      ∧ ((∃ r, (send_campaign_model cfgEx noFail delEx (some campEx) [subEx] false).1
              = Except.ok r
            ∧ st.campaign.status
                = (if r.failed = 0 then "completed" else "completed_with_errors")
            ∧ st.committed = st.campaign)
        ∨ (∃ m, (send_campaign_model cfgEx noFail delEx (some campEx) [subEx] false).1
              = Except.error (SendErr.sendFailed m)
            ∧ st.campaign.status = "failed" ∧ st.committed.status = "failed")
        ∨ (∃ m, (send_campaign_model cfgEx noFail delEx (some campEx) [subEx] false).1
              = Except.error (SendErr.storeError m)
            ∧ st.campaign.status = "failed" ∧ st.committed.status = "sending")) :=
  C7_failure_recovery cfgEx noFail delEx campEx [subEx] false (Or.inl rfl) rfl

namespace OldMailer

/-- Model of the MailerSend message assembled by create_email_message in
src/mailer_old.py lines 46 to 73: sender block, single recipient with the
same display-name fallback, subject, HTML body, plain text body only when
the rendered text is truthy, and the two tracking headers. The shared
mutable client object of the source holds exactly this data when send() is
called for the recipient, so it is modelled as a value. -/
structure OldMessage where
  mail_from_name : String
  mail_from_email : String
  recipient_name : String
  recipient_email : String
  subject : String
  html_content : String
  plain_text_content : Option String
  header_campaign_id : String
  header_subscriber_id : String
  deriving Repr, DecidableEq

/-- Model of EmailSender.create_email_message (src/mailer_old.py lines 26
to 73). The context and the two render calls are textually identical to the
ones in src/mailer.py and reuse the shared buildContext and render_template
models; only the assembled message object differs. -/
def create_email_message (cfg : EmailConfig) (s : Subscriber) (c : Campaign) :
    Except String OldMessage :=
  let context := buildContext cfg s c
  match render_template c.template_html context with
  | Except.error m =>
      Except.error ("Template rendering failed for " ++ s.email ++ ": " ++ m)
  | Except.ok html_content =>
    if pyTruthy c.template_text then
      match render_template (c.template_text.getD ("")) context with
      | Except.error m =>
          Except.error ("Template rendering failed for " ++ s.email ++ ": " ++ m)
      | Except.ok text_content =>
          Except.ok
            { mail_from_name := cfg.from_name, mail_from_email := cfg.from_email,
              recipient_name := pyOr s.name (localPart s.email),
              recipient_email := s.email, subject := c.subject,
              html_content := html_content,
              plain_text_content :=
                (if text_content.isEmpty then none else some text_content),
              header_campaign_id := toString c.id,
              header_subscriber_id := pyStrOptNat s.id }
    else
      Except.ok
        { mail_from_name := cfg.from_name, mail_from_email := cfg.from_email,
          recipient_name := pyOr s.name (localPart s.email),
          recipient_email := s.email, subject := c.subject,
          html_content := html_content,
          plain_text_content := none,
          header_campaign_id := toString c.id,
          header_subscriber_id := pyStrOptNat s.id }

/-- Model of EmailSender.send_single_email (src/mailer_old.py lines 75 to
125): identical control flow to the src/mailer.py version; the message id
comes from the response dict instead of a header (same oracle value), and
the success status code is the hard-coded 200 of the source. -/
def send_single_email (cfg : EmailConfig) (dout : DeliveryOutcome)
    (s : Subscriber) (st : EngineState) : SingleResult × EngineState :=
  match create_email_message cfg s st.campaign with
  | Except.error m =>
      ({ success := false, message_id := none, status_code := none, error := some m },
       { st with
           campaign := { st.campaign with emails_failed := st.campaign.emails_failed + 1 },
           pendingLogs := st.pendingLogs ++
             [{ subscriber_id := s.id, campaign_id := st.campaign.id,
                sendgrid_message_id := none, status := "failed",
                error_message := some m }] })
  | Except.ok _ =>
    match dout with
    | DeliveryOutcome.failure m =>
        ({ success := false, message_id := none, status_code := none, error := some m },
         { st with
             campaign := { st.campaign with emails_failed := st.campaign.emails_failed + 1 },
             pendingLogs := st.pendingLogs ++
               [{ subscriber_id := s.id, campaign_id := st.campaign.id,
                  sendgrid_message_id := none, status := "failed",
                  error_message := some m }] })
    | DeliveryOutcome.success mid _ =>
        ({ success := true, message_id := mid, status_code := some 200, error := none },
         { st with
             campaign := { st.campaign with emails_sent := st.campaign.emails_sent + 1 },
             pendingLogs := st.pendingLogs ++
               [{ subscriber_id := s.id, campaign_id := st.campaign.id,
                  sendgrid_message_id := mid, status := "sent",
                  error_message := none }] })

/-- The inner per-recipient loop of send_campaign (src/mailer_old.py lines
158 to 169), identical to the src/mailer.py loop. -/
def processList (cfg : EmailConfig) (delivery : Nat → DeliveryOutcome) :
    List Subscriber → Nat → Nat → Nat → EngineState → Nat × Nat × Nat × EngineState
  | [], k, sent, failed, st => (k, sent, failed, st)
  | s :: rest, k, sent, failed, st =>
    let r := send_single_email cfg (delivery k) s st
    if r.1.success then processList cfg delivery rest (k + 1) (sent + 1) failed r.2
    else processList cfg delivery rest (k + 1) sent (failed + 1) r.2

/-- The batch loop of send_campaign (src/mailer_old.py lines 155 to 176),
identical to the src/mailer.py loop. -/
def runBatches (cfg : EmailConfig) (delivery : Nat → DeliveryOutcome) (o : StoreOracle) :
    List (List Subscriber) → Nat → Nat → Nat → EngineState →
    Except (String × EngineState) (Nat × Nat × EngineState)
  | [], _, sent, failed, st => Except.ok (sent, failed, st)
  | batch :: rest, k, sent, failed, st =>
    let r := processList cfg delivery batch k sent failed st
    match tryCommit o r.2.2.2 with
    | Except.error e => Except.error e
    | Except.ok st2 => runBatches cfg delivery o rest r.1 r.2.1 r.2.2.1 st2

/-- The try-block body of send_campaign (src/mailer_old.py lines 141 to
191), identical to the src/mailer.py body. -/
def sendCampaignBody (cfg : EmailConfig) (o : StoreOracle)
    (delivery : Nat → DeliveryOutcome) (allSubs : List Subscriber)
    (test_mode : Bool) (st0 : EngineState) :
    Except (String × EngineState) (SendResult × EngineState) :=
  match o.queryFail with
  | some m => Except.error (m, st0)
  | none =>
    let subs := allSubs.filter (fun s => s.is_active)
    let st1 := { st0 with
      campaign := { st0.campaign with total_recipients := subs.length } }
    match tryCommit o st1 with
    | Except.error e => Except.error e
    | Except.ok st2 =>
      let subsUsed := if test_mode then subs.take 3 else subs
      if cfg.batch_size = 0 then
        Except.error ("range() arg 3 must not be zero", st2)
      else
        match runBatches cfg delivery o (chunks cfg.batch_size subsUsed) 0 0 0 st2 with
        | Except.error e => Except.error e
        | Except.ok (sent, failed, st3) =>
          let st4 := { st3 with
            campaign := { st3.campaign with
              status := if failed = 0 then "completed" else "completed_with_errors" } }
          match tryCommit o st4 with
          | Except.error e => Except.error e
          | Except.ok st5 =>
              Except.ok
                ({ success := true, sent := sent, failed := failed,
                   total := subsUsed.length }, st5)

/-- Model of EmailSender.send_campaign (src/mailer_old.py lines 127 to 197),
identical control flow to the src/mailer.py version. -/
def send_campaign_model (cfg : EmailConfig) (o : StoreOracle)
    (delivery : Nat → DeliveryOutcome) (campaign : Option Campaign)
    (allSubs : List Subscriber) (test_mode : Bool) :
    Except SendErr SendResult × Option EngineState :=
  match campaign with
  | none => (Except.error SendErr.notFound, none)
  | some c =>
    if c.status = "draft" ∨ c.status = "scheduled" then
      let st0 := { initState c with campaign := { c with status := "sending" } }
      match tryCommit o st0 with
      | Except.error (m, st) => (Except.error (SendErr.storeError m), some st)
      | Except.ok st1 =>
        match sendCampaignBody cfg o delivery allSubs test_mode st1 with
        | Except.ok (r, st) => (Except.ok r, some st)
        | Except.error (m, st) =>
          let st2 := { st with campaign := { st.campaign with status := "failed" } }
          match tryCommit o st2 with
          | Except.error (m2, st3) => (Except.error (SendErr.storeError m2), some st3)
          | Except.ok st3 =>
              (Except.error (SendErr.sendFailed ("Campaign sending failed: " ++ m)), some st3)
    else
      (Except.error (SendErr.invalidState c.status), some (initState c))

end OldMailer

/-- The error, if any, of a composition attempt. -/
def errOf {α : Type} : Except String α → Option String
  | Except.error m => some m
  | Except.ok _ => none

/-- The two composers fail on exactly the same inputs with exactly the same
message: they build the same context and run the same two render calls. -/
theorem old_create_err_agree (cfg : EmailConfig) (s : Subscriber) (c : Campaign) :
    errOf (OldMailer.create_email_message cfg s c) = errOf (create_email_message cfg s c) := by
  unfold OldMailer.create_email_message create_email_message
  dsimp only
  cases render_template c.template_html (buildContext cfg s c) with
  | error m => rfl
  | ok html =>
    by_cases ht : pyTruthy c.template_text
    · simp only [ht, if_true]
      cases render_template (c.template_text.getD ("")) (buildContext cfg s c) with
      | error m => rfl
      | ok txt => rfl
    · simp only [ht]
      rfl

theorem old_send_single_agree (cfg : EmailConfig) (dout : DeliveryOutcome)
    (s : Subscriber) (st : EngineState) :
    (OldMailer.send_single_email cfg dout s st).1.success
        = (send_single_email cfg dout s st).1.success
      ∧ (OldMailer.send_single_email cfg dout s st).2
        = (send_single_email cfg dout s st).2 := by
  have he := old_create_err_agree cfg s st.campaign
  unfold OldMailer.send_single_email send_single_email
  cases hn : create_email_message cfg s st.campaign with
  | error m =>
    rw [hn] at he
    cases ho : OldMailer.create_email_message cfg s st.campaign with
    | error m2 =>
      rw [ho] at he
      simp only [errOf, Option.some.injEq] at he
      subst he
      exact ⟨rfl, rfl⟩
    | ok msg =>
      rw [ho] at he
      simp [errOf] at he
  | ok msg =>
    rw [hn] at he
    cases ho : OldMailer.create_email_message cfg s st.campaign with
    | error m2 =>
      rw [ho] at he
      simp [errOf] at he
    | ok omsg =>
      cases dout with
      | failure m => exact ⟨rfl, rfl⟩
      | success mid code => exact ⟨rfl, rfl⟩

theorem old_processList_agree (cfg : EmailConfig) (delivery : Nat → DeliveryOutcome) :
    ∀ (subs : List Subscriber) (k sent failed : Nat) (st : EngineState),
    OldMailer.processList cfg delivery subs k sent failed st
      = processList cfg delivery subs k sent failed st := by
  intro subs
  induction subs with
  | nil => intro k sent failed st; rfl
  | cons s rest ih =>
    intro k sent failed st
    rw [OldMailer.processList, processList]
    obtain ⟨h1, h2⟩ := old_send_single_agree cfg (delivery k) s st
    rw [h1, h2]
    cases (send_single_email cfg (delivery k) s st).1.success with
    | true => exact ih _ _ _ _
    | false => exact ih _ _ _ _

theorem old_runBatches_agree (cfg : EmailConfig) (delivery : Nat → DeliveryOutcome)
    (o : StoreOracle) : ∀ (batches : List (List Subscriber)) (k sent failed : Nat)
    (st : EngineState),
    OldMailer.runBatches cfg delivery o batches k sent failed st
      = runBatches cfg delivery o batches k sent failed st := by
  intro batches
  induction batches with
  | nil => intro k sent failed st; rfl
  | cons b rest ih =>
    intro k sent failed st
    rw [OldMailer.runBatches, runBatches]
    rw [old_processList_agree cfg delivery b k sent failed st]
    cases tryCommit o ((processList cfg delivery b k sent failed st).2.2.2) with
    | error e => rfl
    | ok st2 => exact ih _ _ _ _

theorem old_sendCampaignBody_agree (cfg : EmailConfig) (o : StoreOracle)
    (delivery : Nat → DeliveryOutcome) (allSubs : List Subscriber) (tm : Bool)
    (st0 : EngineState) :
    OldMailer.sendCampaignBody cfg o delivery allSubs tm st0
      = sendCampaignBody cfg o delivery allSubs tm st0 := by
  unfold OldMailer.sendCampaignBody sendCampaignBody
  simp only [old_runBatches_agree]

/-- C9: for the same campaign, subscriber table, configuration, store
behaviour and delivery-client behaviour (same per-attempt outcomes, hence
equivalent provider results for the same composed message), send_campaign of
src/mailer.py and send_campaign of src/mailer_old.py are behaviourally
equal: same returned result or raised error, same campaign status
transitions and counter updates, and the same EmailLog rows, including the
provider message id taken from the respective provider response. -/
theorem C9_mailers_equivalent (cfg : EmailConfig) (o : StoreOracle)
    (delivery : Nat → DeliveryOutcome) (campaign : Option Campaign)
    (allSubs : List Subscriber) (tm : Bool) :
    OldMailer.send_campaign_model cfg o delivery campaign allSubs tm
      = send_campaign_model cfg o delivery campaign allSubs tm := by
  cases campaign with
  | none => rfl
  | some c =>
    unfold OldMailer.send_campaign_model send_campaign_model
    simp only [old_sendCampaignBody_agree]
